import Mathlib

/-!
Verification development for the Web_Page_Analyzer_Async repository.

The definitions below are a shallow embedding of the JavaScript source:

* `src/services/storage.service.js` (Redis-backed job store with retry logic),
* `src/services/queue.service.js`   (`getJobInfo`),
* `src/api/controllers/analyse.controller.js` (`analyseUrl`),
* `src/api/controllers/results.controller.js` (`getResults`),
* `src/worker/processor.js` (`processJob`) and `src/worker/worker.js`
  (queue retry orchestration and the `failed` event handler),
* `src/services/cleanup.service.js` (`CleanupService.runCleanup` / `cleanupJob`),
* `src/utils/jobIdGenerator.js`.

Asynchronous, stateful code is embedded as explicit state passing: a `St`
value carries the Redis-held job record, an oracle stream deciding which
backend calls succeed (a transient Redis outage makes a call fail), the
list of backoff delays slept so far, and a ghost counter of
PENDING-to-PROCESSING record writes.  Millisecond timestamps are `Nat`;
ISO date strings are identified with their millisecond values.
-/

/-- Job status enum from `src/utils/constants.js` (`JOB_STATUS`). -/
inductive JobStatus
  | PENDING
  | PROCESSING
  | COMPLETED
  | FAILED
deriving DecidableEq, Repr

/-- A stored job record (the JSON object kept under `job:{job_id}`).
Optional fields are absent (`none`) unless some write has set them;
`created_at`, `failed_at` and `updated_at` carry millisecond timestamps. -/
structure JobRecord where
  job_id : String
  url : String
  status : JobStatus
  created_at : Option Nat := none
  updated_at : Option Nat := none
  results : Option String := none
  error : Option String := none
  error_type : Option String := none
  http_status_code : Option Nat := none
  failed_at : Option Nat := none
deriving DecidableEq, Repr

/-- A partial update object (`updateData`): fields present in the object
override the stored record, absent fields are left unchanged, exactly as
the spread `{...existing, ...updateData}` in `updateJob` does. -/
structure JobUpdate where
  status : Option JobStatus := none
  results : Option String := none
  error : Option String := none
  error_type : Option String := none
  http_status_code : Option Nat := none
  failed_at : Option Nat := none
  updated_at : Option Nat := none
deriving DecidableEq, Repr

/-- The merge `{...existing, ...updateData}` from `updateJob`. -/
def mergeJob (j : JobRecord) (u : JobUpdate) : JobRecord :=
  { j with
    status := u.status.getD j.status
    results := u.results.orElse (fun _ => j.results)
    error := u.error.orElse (fun _ => j.error)
    error_type := u.error_type.orElse (fun _ => j.error_type)
    http_status_code := u.http_status_code.orElse (fun _ => j.http_status_code)
    failed_at := u.failed_at.orElse (fun _ => j.failed_at)
    updated_at := u.updated_at.orElse (fun _ => j.updated_at) }

/-- `StorageError` from `storage.service.js`: a message plus an
`ERROR_TYPES` tag (`VALIDATION_ERROR`, `STORAGE_ERROR`, `NOT_FOUND_ERROR`). -/
structure StorageError where
  message : String
  type : String
deriving DecidableEq, Repr

/-- A queue work item `{job_id, url}`. -/
structure WorkItem where
  job_id : String
  url : String
deriving DecidableEq, Repr

/-- Explicit state for the storage backend.  `store` is the record held
under the job key (`none` = key absent); `oracle` is the stream of
outcomes of the next Redis calls (`false` = the call fails with a
transient backend error; an exhausted stream means every further call
succeeds); `slept` is the ghost list of backoff delays slept so far;
`p2p` is the ghost count of writes that replaced a PENDING record by a
PROCESSING one. -/
structure St where
  store : Option JobRecord := none
  oracle : List Bool := []
  slept : List Nat := []
  p2p : Nat := 0
deriving DecidableEq, Repr

/-- Consume the outcome of one Redis call from the oracle. -/
def takeOracle (st : St) : Bool × St :=
  match st.oracle with
  | [] => (true, st)
  | b :: bs => (b, { st with oracle := bs })

/-- Record a backoff sleep of `d` milliseconds (ghost). -/
def sleep (d : Nat) (st : St) : St :=
  { st with slept := st.slept ++ [d] }

/-- Does writing `v` over the current store perform the
PENDING-to-PROCESSING transition? (ghost bookkeeping) -/
def isClaimWrite (old : Option JobRecord) (v : JobRecord) : Bool :=
  match old with
  | some j => j.status == JobStatus.PENDING && v.status == JobStatus.PROCESSING
  | none => false

/-- `redis.setex(key, TTL, value)`: on success replaces the stored value. -/
def redisSetex (v : JobRecord) (st : St) : Except Unit Unit × St :=
  let (ok, st') := takeOracle st
  if ok then
    (Except.ok (),
     { st' with store := some v
                p2p := st'.p2p + (if isClaimWrite st'.store v then 1 else 0) })
  else (Except.error (), st')

/-- `redis.get(key)`. -/
def redisGet (st : St) : Except Unit (Option JobRecord) × St :=
  let (ok, st') := takeOracle st
  if ok then (Except.ok st'.store, st') else (Except.error (), st')

/-- `redis.exists(key)`. -/
def redisExists (st : St) : Except Unit Bool × St :=
  let (ok, st') := takeOracle st
  if ok then (Except.ok st'.store.isSome, st') else (Except.error (), st')

/-- The delay slept after failed attempt `attempt`:
`Math.min(100 * Math.pow(2, attempt - 1), 1000)`. -/
def backoffDelay (attempt : Nat) : Nat :=
  min (100 * 2 ^ (attempt - 1)) 1000

/-- The `StorageError` thrown when `retryOperation` exhausts its attempts. -/
def retryFail (opName : String) (maxRetries : Nat) : StorageError :=
  ⟨opName ++ " failed after " ++ toString maxRetries ++ " attempts", "STORAGE_ERROR"⟩

/-- Loop body of `retryOperation`: attempts `attempt, attempt+1, ...` with
`remaining` attempts left; after a failed attempt `< maxRetries` it sleeps
the exponential-backoff delay before retrying. -/
def retryGo (op : St → Except Unit α × St) (maxRetries : Nat) (opName : String) :
    Nat → Nat → St → Except StorageError α × St
  | 0, _, st => (Except.error (retryFail opName maxRetries), st)
  | remaining + 1, attempt, st =>
    match op st with
    | (Except.ok a, st') => (Except.ok a, st')
    | (Except.error _, st') =>
      if attempt < maxRetries then
        retryGo op maxRetries opName remaining (attempt + 1) (sleep (backoffDelay attempt) st')
      else (Except.error (retryFail opName maxRetries), st')

/-- `retryOperation(operation, maxRetries, operationName)` from
`storage.service.js`: runs the operation for attempts `1..maxRetries`,
sleeping `min(100*2^(attempt-1), 1000)` ms between attempts, and throws
`StorageError` after the last failed attempt. -/
def retryOperation (op : St → Except Unit α × St) (maxRetries : Nat) (opName : String)
    (st : St) : Except StorageError α × St :=
  retryGo op maxRetries opName maxRetries 1 st

/-- `createJob(jobData)` from `storage.service.js`.  Validates the input
(falsy `job_id`/`url` rejected), checks key existence with a single
attempt (`retryOperation(.., 1, "check job existence")`), rejects
duplicates, and writes the record with a single attempt
(`retryOperation(.., 1, "create job")`).  The stored object is
`{...jobData}` unchanged. -/
def createJob (jobData : JobRecord) (st : St) : Except StorageError JobRecord × St :=
  if jobData.job_id = "" then
    (Except.error ⟨"job_id is required", "VALIDATION_ERROR"⟩, st)
  else if jobData.url = "" then
    (Except.error ⟨"url is required", "VALIDATION_ERROR"⟩, st)
  else
    match retryOperation redisExists 1 "check job existence" st with
    | (Except.error e, st') => (Except.error e, st')
    | (Except.ok ex, st') =>
      if ex then
        (Except.error ⟨"Job already exists", "VALIDATION_ERROR"⟩, st')
      else
        match retryOperation (redisSetex jobData) 1 "create job" st' with
        | (Except.error e, st'') => (Except.error e, st'')
        | (Except.ok _, st'') => (Except.ok jobData, st'')

/-- `getJob(job_id)` from `storage.service.js`: reads the key with up to
3 attempts; a missing key yields `none` (job not found). -/
def getJob (job_id : String) (st : St) : Except StorageError (Option JobRecord) × St :=
  if job_id = "" then
    (Except.error ⟨"job_id is required", "VALIDATION_ERROR"⟩, st)
  else
    match retryOperation redisGet 3 "get job" st with
    | (Except.error e, st') => (Except.error e, st')
    | (Except.ok v, st') => (Except.ok v, st')

/-- `updateJob(job_id, updateData)` from `storage.service.js`: reads the
existing record (`getJob`), fails with `NOT_FOUND_ERROR` if absent,
merges `{...existing, ...updateData}` and writes it back with up to 3
attempts. -/
def updateJob (job_id : String) (u : JobUpdate) (st : St) :
    Except StorageError JobRecord × St :=
  if job_id = "" then
    (Except.error ⟨"job_id is required", "VALIDATION_ERROR"⟩, st)
  else
    match getJob job_id st with
    | (Except.error e, st') => (Except.error e, st')
    | (Except.ok none, st') => (Except.error ⟨"Job not found", "NOT_FOUND_ERROR"⟩, st')
    | (Except.ok (some existing), st') =>
      let updated := mergeJob existing u
      match retryOperation (redisSetex updated) 3 "update job" st' with
      | (Except.error e, st'') => (Except.error e, st'')
      | (Except.ok _, st'') => (Except.ok updated, st'')

/-- `updateJobIfPending(job_id, updateData)` from `storage.service.js`:
returns `false` when the record is absent or its status is not PENDING,
applies `updateJob` otherwise; every thrown error (validation failure or
storage outage) is caught and reported as `false`. -/
def updateJobIfPending (job_id : String) (u : JobUpdate) (st : St) : Bool × St :=
  if job_id = "" then (false, st)
  else
    match getJob job_id st with
    | (Except.error _, st') => (false, st')
    | (Except.ok none, st') => (false, st')
    | (Except.ok (some job), st') =>
      if job.status ≠ JobStatus.PENDING then (false, st')
      else
        match updateJob job_id u st' with
        | (Except.error _, st'') => (false, st'')
        | (Except.ok _, st'') => (true, st'')

/-- JavaScript `x || "default"` on a string value (empty string is falsy). -/
def jsOrString (s dflt : String) : String :=
  if s = "" then dflt else s

/-- JavaScript `x || "default"` on a possibly-undefined string property. -/
def jsOrProp (s : Option String) (dflt : String) : String :=
  match s with
  | none => dflt
  | some v => jsOrString v dflt

/-- An error propagating out of `processJob` (its `message` and, when the
error object carries one, its `type` property). -/
structure ThrownError where
  message : String
  type : Option String
deriving DecidableEq, Repr

/-- Outcome of `fetchUrlWithRetry(url, 3)` as seen by `processJob`: either
the fetched page or the final `FetchError` (message, `ERROR_TYPES` tag,
`isRetryable` flag). -/
inductive FetchOutcome
  | ok (html : String) (statusCode : Nat)
  | err (message : String) (etype : String) (isRetryable : Bool)
deriving DecidableEq, Repr

/-- Outcome of `parseHtml` + `validateResults` on the fetched page:
either the structured results (kept opaque) or a parse error message. -/
inductive ParseOutcome
  | ok (results : String)
  | err (message : String)
deriving DecidableEq, Repr

/-- The object returned by a resolved `processJob` call. -/
structure ProcessResult where
  success : Bool
  reason : Option String := none
  error : Option String := none
  retryable : Option Bool := none
  results : Option String := none
deriving DecidableEq, Repr

/-- The result object `{success: false, reason: "Job already processing or
completed"}` returned when the worker-side claim fails. -/
def alreadyHandled : ProcessResult :=
  { success := false, reason := some "Job already processing or completed" }

/-- The catch-all at the bottom of `processJob` (processor.js lines
136-160): best-effort `updateJob` to FAILED with the error's message and
type (JS `||` defaults), then rethrow. -/
def processCatchAll (job_id : String) (e : ThrownError) (st : St) :
    Except ThrownError ProcessResult × St :=
  let st' := (updateJob job_id
    { status := some JobStatus.FAILED
      error := some (jsOrString e.message "Unknown processing error")
      error_type := some (jsOrProp e.type "UNKNOWN_ERROR") } st).2
  (Except.error e, st')

/-- `processJob(job_id, url)` from `src/worker/processor.js`, with the
fetch and parse collaborator outcomes passed as parameters.  It first
claims the job via `updateJobIfPending(job_id, {status: PROCESSING})` and
exits as a no-op when that returns `false`; a retryable fetch error is
rethrown (through the catch-all) for the queue to retry; non-retryable
fetch errors and parse errors mark the job FAILED; success marks it
COMPLETED with the results and HTTP status code. -/
def processJob (f : FetchOutcome) (p : ParseOutcome) (job_id url : String) (st : St) :
    Except ThrownError ProcessResult × St :=
  let (updated, st₁) := updateJobIfPending job_id { status := some JobStatus.PROCESSING } st
  if !updated then
    (Except.ok { success := false, reason := some "Job already processing or completed" }, st₁)
  else
    match f with
    | FetchOutcome.err msg etype retryable =>
      if retryable then
        processCatchAll job_id ⟨msg, some etype⟩ st₁
      else
        match updateJob job_id
            { status := some JobStatus.FAILED, error := some msg, error_type := some etype } st₁ with
        | (Except.error se, st₂) => processCatchAll job_id ⟨se.message, some se.type⟩ st₂
        | (Except.ok _, st₂) =>
          (Except.ok { success := false, error := some msg, retryable := some false }, st₂)
    | FetchOutcome.ok _html statusCode =>
      match p with
      | ParseOutcome.err pmsg =>
        match updateJob job_id
            { status := some JobStatus.FAILED
              error := some ("Failed to parse HTML: " ++ pmsg)
              error_type := some "PARSE_ERROR" } st₁ with
        | (Except.error se, st₂) => processCatchAll job_id ⟨se.message, some se.type⟩ st₂
        | (Except.ok _, st₂) =>
          (Except.ok { success := false, error := some pmsg, retryable := some false }, st₂)
      | ParseOutcome.ok results =>
        match updateJob job_id
            { status := some JobStatus.COMPLETED
              results := some results
              http_status_code := some statusCode } st₁ with
        | (Except.error se, st₂) => processCatchAll job_id ⟨se.message, some se.type⟩ st₂
        | (Except.ok _, st₂) =>
          (Except.ok { success := true, results := some results }, st₂)

/-- The queue `failed` event handler set up in `src/worker/worker.js`
(`setupEventHandlers`, lines 92-112): it logs the failure — and, on the
final attempt, logs "Job permanently failed after all retries" — but
performs no storage operation, so the state is returned unchanged. -/
def onJobFailed (_attemptsMade _maxAttempts : Nat) (st : St) : St :=
  st

/-- Bull's delivery loop for one job with `attempts: maxAttempts`
(worker.js `queue.process` + the `failed` event): each delivery runs
`processJob`; a resolved promise ends the job (even with
`success: false`), a rejected one fires the `failed` handler and is
redelivered until the attempts are exhausted. -/
def bullProcess (f : FetchOutcome) (p : ParseOutcome) (job_id url : String)
    (maxAttempts : Nat) : Nat → St → Option ProcessResult × St
  | 0, st => (none, st)
  | n + 1, st =>
    match processJob f p job_id url st with
    | (Except.ok r, st') => (some r, st')
    | (Except.error _, st') =>
      let attemptsMade := maxAttempts - n
      let st'' := onJobFailed attemptsMade maxAttempts st'
      if maxAttempts ≤ attemptsMade then (none, st'')
      else bullProcess f p job_id url maxAttempts n st''

/-- Deliver a queued job, allowing up to `maxAttempts` attempts. -/
def bullRun (f : FetchOutcome) (p : ParseOutcome) (job_id url : String)
    (maxAttempts : Nat) (st : St) : Option ProcessResult × St :=
  bullProcess f p job_id url maxAttempts maxAttempts st

/-- Bull job states relevant to `getJobInfo`. -/
inductive BullState
  | waiting
  | active
  | completed
  | failed
  | delayed
deriving DecidableEq, Repr

/-- Abstract view of the Bull queue consulted by `getJobInfo`: whether
`queue.getJob(job_id)` finds the job and in which state, the job's index
in the `getWaiting()` snapshot (`none` when `findIndex` returns -1), the
active count, and whether the queue backend calls succeed at all. -/
structure QueueModel where
  job : Option BullState
  waitingIdx : Option Nat := none
  activeCount : Nat := 0
  backendOk : Bool := true
deriving DecidableEq, Repr

/-- The `{found, state, position, estimatedWait}` object returned by
`queue.service.js` `getJobInfo`. -/
structure QueueInfo where
  found : Bool
  state : Option BullState := none
  position : Int
  estimatedWait : Int := 0
deriving DecidableEq, Repr

/-- JavaScript `Math.round (num / den)` for non-negative operands:
half-up rounding. -/
def jsRound (num den : Nat) : Nat :=
  (2 * num + den) / (2 * den)

/-- `getJobInfo(job_id)` from `src/services/queue.service.js` (lines
183-249): not-found and thrown backend errors yield
`{found: false, position: -1}`; a waiting job reports its 1-based
position in the waiting snapshot (0 when `findIndex` misses); an active
job reports position 0; any other state reports position -1. -/
def getJobInfo (qm : QueueModel) : QueueInfo :=
  if !qm.backendOk then
    { found := false, position := -1, estimatedWait := 0 }
  else
    match qm.job with
    | none => { found := false, position := -1, estimatedWait := 0 }
    | some BullState.waiting =>
      let position : Int := (match qm.waitingIdx with | some i => (i : Int) | none => -1) + 1
      let estimatedWait : Int :=
        if position > 0 then
          (jsRound (position.toNat * 8) (max qm.activeCount 1) : Int)
        else 0
      { found := true, state := some BullState.waiting, position := position
        estimatedWait := estimatedWait }
    | some BullState.active =>
      { found := true, state := some BullState.active, position := 0, estimatedWait := 0 }
    | some s =>
      { found := true, state := some s, position := -1, estimatedWait := 0 }

/-- An HTTP response as assembled by the controllers: status code plus
the JSON body fields the claims are about. -/
structure HttpResponse where
  statusCode : Nat
  error : Option String := none
  message : Option String := none
  job_id : Option String := none
  jobStatus : Option JobStatus := none
  url : Option String := none
  results : Option String := none
deriving DecidableEq, Repr

/-- Collaborator outcomes for one `analyseUrl` request: the
`validateUrlComplete` verdict and whether `queueService.enqueue`
(`queue.add`) succeeds. -/
structure AnalyseDeps where
  valid : Bool
  validationError : String := ""
  validationDetails : String := ""
  enqueueOk : Bool := true
deriving DecidableEq, Repr

/-- `analyseUrl` from `src/api/controllers/analyse.controller.js` with
the allocated `job_id` and the collaborator outcomes as parameters.  It
validates the URL (400 on failure), stores
`{job_id, url, status: PENDING}` — note that the ISO timestamp computed
at line 30 is never added to the record — answering 503
"Storage system is unavailable" when `createJob` throws, then enqueues
`{job_id, url}`; if the enqueue fails it best-effort updates the record
to FAILED / "Failed to queue job" and answers 503
"Queue system is down, please try again later"; otherwise it answers
202.  The queue contents are threaded explicitly so that what was
enqueued is visible. -/
def analyseUrl (deps : AnalyseDeps) (url job_id : String) (st : St)
    (queue : List WorkItem) : HttpResponse × St × List WorkItem :=
  if !deps.valid then
    ({ statusCode := 400, error := some deps.validationError
       message := some deps.validationDetails }, st, queue)
  else
    match createJob { job_id := job_id, url := url, status := JobStatus.PENDING } st with
    | (Except.error _, st₁) =>
      ({ statusCode := 503, error := some "Storage system is unavailable"
         message := some "Failed to create job. Please try again." }, st₁, queue)
    | (Except.ok _, st₁) =>
      if deps.enqueueOk then
        ({ statusCode := 202, job_id := some job_id
           jobStatus := some JobStatus.PENDING
           message := some "Job queued successfully" }, st₁,
         queue ++ [{ job_id := job_id, url := url }])
      else
        let st₂ := (updateJob job_id
          { status := some JobStatus.FAILED, error := some "Failed to queue job" } st₁).2
        ({ statusCode := 503, error := some "Queue system is down, please try again later"
           message := some "Queue system is temporarily unavailable. Please try again later." },
         st₂, queue)

/-- Value of a big-endian list of decimal digit characters, the way
`parseInt(s, 10)` accumulates an all-digit prefix. -/
def digitsToNat (cs : List Char) : Nat :=
  cs.foldl (fun a c => 10 * a + (c.toNat - 48)) 0

/-- JavaScript `parseInt(s, 10)` restricted to what the job-id code can
feed it: the maximal leading run of decimal digits is parsed; `none`
models `NaN` (no leading digit). -/
def jsParseInt (s : String) : Option Nat :=
  let ds := s.data.takeWhile Char.isDigit
  if ds.isEmpty then none else some (digitsToNat ds)

/-- `getTimestampFromJobId(jobId)` from `src/utils/jobIdGenerator.js`:
rejects ids shorter than 13 characters (which covers the falsy check on
the empty string), parses `jobId.substring(0, 13)` and rejects `NaN`. -/
def getTimestampFromJobId (jobId : String) : Except String Nat :=
  if jobId.length < 13 then Except.error "Invalid job ID format"
  else
    match jsParseInt (String.mk (jobId.data.take 13)) with
    | none => Except.error "Invalid timestamp in job ID"
    | some t => Except.ok t

/-- A JavaScript value passed to `isValidJobId`: a string or anything
else (`typeof jobId !== "string"`). -/
inductive JsValue
  | str (s : String)
  | nonString
deriving DecidableEq, Repr

/-- Millisecond epoch of 2000-01-01 (the `year2000` constant). -/
def year2000 : Nat := 946684800000

/-- Millisecond epoch of 2100-01-01 (the `year2100` constant). -/
def year2100 : Nat := 4102444800000

/-- `isValidJobId(jobId)` from `src/utils/jobIdGenerator.js`: requires a
string matching `^\d{19}$` whose embedded 13-digit timestamp lies in
`[year2000, year2100]`. -/
def isValidJobId (v : JsValue) : Bool :=
  match v with
  | JsValue.nonString => false
  | JsValue.str jobId =>
    if !(jobId.length = 19 && jobId.data.all Char.isDigit) then false
    else
      match getTimestampFromJobId jobId with
      | Except.error _ => false
      | Except.ok t => year2000 ≤ t && t ≤ year2100

/-- `getResults` from `src/api/controllers/results.controller.js`:
validates the id format (400), reads the record (503 on storage failure,
404 when absent), and presents the stored record; a stored PENDING
record is presented as PROCESSING exactly when the queue reports the
work item found with position > 0; COMPLETED responses carry the
results, FAILED ones the stored error (default
"Job processing failed"). -/
def getResults (job_id : String) (qm : QueueModel) (st : St) : HttpResponse × St :=
  if !isValidJobId (JsValue.str job_id) then
    ({ statusCode := 400, error := some "Invalid job ID format"
       message := some "Job ID must be a 19-digit numeric string" }, st)
  else
    match getJob job_id st with
    | (Except.error _, st₁) =>
      ({ statusCode := 503, error := some "Storage system is unavailable"
         message := some "Unable to retrieve job. Please try again." }, st₁)
    | (Except.ok none, st₁) =>
      ({ statusCode := 404, error := some "Job not found"
         message := some ("No job found with ID: " ++ job_id) }, st₁)
    | (Except.ok (some job), st₁) =>
      let base : HttpResponse :=
        { statusCode := 200, job_id := some job.job_id
          jobStatus := some job.status, url := some job.url }
      match job.status with
      | JobStatus.PENDING =>
        let queueInfo := getJobInfo qm
        if queueInfo.found && queueInfo.position > 0 then
          ({ base with jobStatus := some JobStatus.PROCESSING }, st₁)
        else (base, st₁)
      | JobStatus.PROCESSING => (base, st₁)
      | JobStatus.COMPLETED => ({ base with results := job.results }, st₁)
      | JobStatus.FAILED =>
        ({ base with error := some (jsOrProp job.error "Job processing failed") }, st₁)

/-- The `module.exports` object of `src/services/storage.service.js`
(its final lines): these are the only properties the storage module
exposes.  `findOldPendingJobs` is not among them. -/
def storageServiceExports : List String :=
  ["createJob", "getJob", "updateJob", "updateJobIfPending", "ping", "StorageError"]

/-- Reliable multi-record view of the job store used by the cleanup
sweeper: `updateJob(job_id, u)` merges `u` into the record with that id. -/
def multiUpdate (store : List JobRecord) (id : String) (u : JobUpdate) : List JobRecord :=
  store.map (fun j => if j.job_id = id then mergeJob j u else j)

/-- `CleanupService.cleanupJob(job)` from `src/services/cleanup.service.js`
(logger.js part, lines 259-331), with the queue answer for this job id
passed in.  A job whose work item is not found (or position -1) is
marked FAILED / "Job lost in queue after timeout. Please retry." /
`TIMEOUT_ERROR`; a waiting/active job older than 30 minutes is removed
from the queue and marked FAILED; otherwise nothing happens.  The age
test `Date.now() - new Date(job.created_at) > maxAge` is `false` when
`created_at` is absent (`NaN` comparison). -/
def cleanupJob (now : Nat) (qi : QueueInfo) (job : JobRecord)
    (store : List JobRecord) : Bool × List JobRecord :=
  if !qi.found || qi.position == -1 then
    (true, multiUpdate store job.job_id
      { status := some JobStatus.FAILED
        error := some "Job lost in queue after timeout. Please retry."
        error_type := some "TIMEOUT_ERROR"
        failed_at := some now, updated_at := some now })
  else if (qi.state == some BullState.waiting || qi.state == some BullState.active) &&
      (match job.created_at with
       | some c => decide ((30 * 60 * 1000 : Int) < (now : Int) - (c : Int))
       | none => false) then
    (true, multiUpdate store job.job_id
      { status := some JobStatus.FAILED
        error := some "Job exceeded maximum processing time (30 minutes)"
        error_type := some "TIMEOUT_ERROR"
        failed_at := some now, updated_at := some now })
  else (false, store)

/-- One run of `CleanupService.runCleanup` (store effects).  Its first
statement calls `storageService.findOldPendingJobs(...)`; that property
is not in `storageServiceExports`, so the call raises a `TypeError`
which the surrounding `try`/`catch` swallows ("Cleanup job failed"):
no job is examined and the store is untouched.  Had the export existed,
each returned old PENDING job would be passed through `cleanupJob` (the
queue-bookkeeping purge of step 3 never touches job records and is not
modelled). -/
def runCleanup (oldPendingJobs : List JobRecord) (qinfoOf : String → QueueInfo)
    (now : Nat) (store : List JobRecord) : Nat × List JobRecord :=
  if storageServiceExports.contains "findOldPendingJobs" then
    oldPendingJobs.foldl
      (fun acc job =>
        let (cleaned, store') := cleanupJob now (qinfoOf job.job_id) job acc.2
        (acc.1 + (if cleaned then 1 else 0), store'))
      (0, store)
  else (0, store)

/-- Allocator state of `src/utils/jobIdGenerator.js`: the module-level
`lastTimestamp` and `sequence` variables (both start at 0). -/
structure GenState where
  lastTimestamp : Nat := 0
  sequence : Nat := 0
deriving DecidableEq, Repr

/-- Environment of one `generateNumericJobId()` call: the `Date.now()`
reading at entry, `Math.floor(Math.random() * 1000000)`, and the first
`Date.now()` reading that exceeds `lastTimestamp` (the value the spin
loop `while (timestamp <= lastTimestamp) timestamp = Date.now()` exits
with, used only on sequence wraparound). -/
structure GenInput where
  now : Nat
  rand : Nat
  nowAfterSpin : Nat
deriving DecidableEq, Repr

/-- Decimal string of a natural number (what `${n}` interpolates for the
integer `n`). -/
def natToDecimal (n : Nat) : String :=
  if n = 0 then "0"
  else String.mk (((Nat.digits 10 n).map Nat.digitChar).reverse)

/-- `sequence.toString().padStart(6, "0")`. -/
def padStart6 (s : String) : String :=
  String.mk (List.replicate (6 - s.length) '0') ++ s

/-- The returned id `` `${timestamp}${sequencePadded}` ``. -/
def mkJobId (timestamp seq : Nat) : String :=
  natToDecimal timestamp ++ padStart6 (natToDecimal seq)

/-- `generateNumericJobId()` from `src/utils/jobIdGenerator.js`: if the
clock reads the same millisecond as the previous call the sequence is
incremented modulo 1,000,000 (spinning until the clock advances on
wraparound); on a fresh millisecond the sequence is reseeded with a
random value.  Returns the id and the new module state. -/
def generateNumericJobId (g : GenState) (inp : GenInput) : String × GenState :=
  if inp.now = g.lastTimestamp then
    let seq := (g.sequence + 1) % 1000000
    if seq = 0 then
      (mkJobId inp.nowAfterSpin seq, { lastTimestamp := inp.nowAfterSpin, sequence := seq })
    else
      (mkJobId inp.now seq, { lastTimestamp := inp.now, sequence := seq })
  else
    (mkJobId inp.now inp.rand, { lastTimestamp := inp.now, sequence := inp.rand })

/-- A sequence of allocator calls, collecting the returned ids. -/
def runGen (g : GenState) : List GenInput → List String × GenState
  | [] => ([], g)
  | i :: is =>
    let (id, g') := generateNumericJobId g i
    let (ids, g'') := runGen g' is
    (id :: ids, g'')

/-- Well-formedness of one call's environment: the clock is
non-decreasing (`Date.now()` readings never go below the stored
`lastTimestamp`, itself an earlier reading), the spin loop's exit value
exceeds `lastTimestamp` (its loop condition), `Math.random`'s scaled
value is below 1,000,000, and the clock readings are 13-digit
millisecond values (as every reading between 2001 and 2286 is). -/
def validInput (g : GenState) (i : GenInput) : Bool :=
  decide (g.lastTimestamp ≤ i.now) && decide (g.lastTimestamp < i.nowAfterSpin) &&
  decide (i.rand < 1000000) &&
  decide (10 ^ 12 ≤ i.now) && decide (i.now < 10 ^ 13) &&
  decide (10 ^ 12 ≤ i.nowAfterSpin) && decide (i.nowAfterSpin < 10 ^ 13)

/-- Well-formedness of a whole run of calls. -/
def validRun : GenState → List GenInput → Bool
  | _, [] => true
  | g, i :: is => validInput g i && validRun (generateNumericJobId g i).2 is

lemma takeOracle_store (st : St) : (takeOracle st).2.store = st.store := by
  cases h : st.oracle <;> simp [takeOracle, h]

lemma takeOracle_p2p (st : St) : (takeOracle st).2.p2p = st.p2p := by
  cases h : st.oracle <;> simp [takeOracle, h]

lemma sleep_store (d : Nat) (st : St) : (sleep d st).store = st.store := rfl

lemma sleep_p2p (d : Nat) (st : St) : (sleep d st).p2p = st.p2p := rfl

lemma redisGet_snd (st : St) : (redisGet st).2 = (takeOracle st).2 := by
  unfold redisGet
  rcases takeOracle st with ⟨ok, st'⟩
  cases ok <;> rfl

lemma redisGet_ok (st : St) (x : Option JobRecord) :
    (redisGet st).1 = Except.ok x → x = st.store := by
  unfold redisGet
  rcases h : takeOracle st with ⟨ok, st'⟩
  have hs : st'.store = st.store := by
    have := takeOracle_store st
    rw [h] at this
    exact this
  cases ok <;> simp_all

lemma redisExists_snd (st : St) : (redisExists st).2 = (takeOracle st).2 := by
  unfold redisExists
  rcases takeOracle st with ⟨ok, st'⟩
  cases ok <;> rfl

lemma redisSetex_err (v : JobRecord) (st : St) (e : Unit) :
    (redisSetex v st).1 = Except.error e →
      (redisSetex v st).2.store = st.store ∧ (redisSetex v st).2.p2p = st.p2p := by
  unfold redisSetex
  rcases h : takeOracle st with ⟨ok, st'⟩
  have hs : st'.store = st.store := by
    have := takeOracle_store st
    rw [h] at this
    exact this
  have hp : st'.p2p = st.p2p := by
    have := takeOracle_p2p st
    rw [h] at this
    exact this
  cases ok <;> simp_all

lemma redisSetex_ok (v : JobRecord) (st : St) :
    (redisSetex v st).1 = Except.ok () →
      (redisSetex v st).2.store = some v ∧
      (redisSetex v st).2.p2p = st.p2p + (if isClaimWrite st.store v then 1 else 0) := by
  unfold redisSetex
  rcases h : takeOracle st with ⟨ok, st'⟩
  have hs : st'.store = st.store := by
    have := takeOracle_store st
    rw [h] at this
    exact this
  have hp : st'.p2p = st.p2p := by
    have := takeOracle_p2p st
    rw [h] at this
    exact this
  cases ok <;> simp_all

lemma retryGo_get (m : Nat) (name : String) :
    ∀ rem att st, ((retryGo redisGet m name rem att st).2.store = st.store ∧
      (retryGo redisGet m name rem att st).2.p2p = st.p2p) ∧
      (∀ x, (retryGo redisGet m name rem att st).1 = Except.ok x → x = st.store) := by
  intro rem
  induction rem with
  | zero => intro att st; exact ⟨⟨rfl, rfl⟩, by intro x hx; exact absurd hx (by simp [retryGo])⟩
  | succ n ih =>
    intro att st
    have hsnd := redisGet_snd st
    have hts := takeOracle_store st
    have htp := takeOracle_p2p st
    unfold retryGo
    rcases h : redisGet st with ⟨res, st'⟩
    have h2 : st' = (takeOracle st).2 := by rw [h] at hsnd; exact hsnd
    have hs : st'.store = st.store := by rw [h2]; exact hts
    have hp : st'.p2p = st.p2p := by rw [h2]; exact htp
    cases res with
    | ok a =>
      have ha : a = st.store := by
        have := redisGet_ok st a
        rw [h] at this
        exact this rfl
      simp [ha, hs, hp]
    | error e =>
      by_cases hlt : att < m
      · simp only [hlt, if_true]
        have := ih (att + 1) (sleep (backoffDelay att) st')
        refine ⟨⟨?_, ?_⟩, ?_⟩
        · rw [this.1.1, sleep_store, hs]
        · rw [this.1.2, sleep_p2p, hp]
        · intro x hx
          have := this.2 x hx
          rw [this, sleep_store, hs]
      · simp [hlt, hs, hp]

lemma retryGo_setex (v : JobRecord) (m : Nat) (name : String) :
    ∀ rem att st,
      (∀ e, (retryGo (redisSetex v) m name rem att st).1 = Except.error e →
        (retryGo (redisSetex v) m name rem att st).2.store = st.store ∧
        (retryGo (redisSetex v) m name rem att st).2.p2p = st.p2p) ∧
      (∀ a, (retryGo (redisSetex v) m name rem att st).1 = Except.ok a →
        (retryGo (redisSetex v) m name rem att st).2.store = some v ∧
        (retryGo (redisSetex v) m name rem att st).2.p2p =
          st.p2p + (if isClaimWrite st.store v then 1 else 0)) := by
  intro rem
  induction rem with
  | zero =>
    intro att st
    exact ⟨fun e _ => ⟨rfl, rfl⟩, fun a ha => absurd ha (by simp [retryGo])⟩
  | succ n ih =>
    intro att st
    unfold retryGo
    rcases h : redisSetex v st with ⟨res, st'⟩
    cases res with
    | ok a =>
      cases a
      have := redisSetex_ok v st
      rw [h] at this
      have hok := this rfl
      exact ⟨fun e he => absurd he (by simp), fun a _ => ⟨hok.1, hok.2⟩⟩
    | error e =>
      have herr := redisSetex_err v st e
      rw [h] at herr
      have hpres := herr rfl
      by_cases hlt : att < m
      · simp only [hlt, if_true]
        have hrec := ih (att + 1) (sleep (backoffDelay att) st')
        refine ⟨fun e' he' => ?_, fun a ha => ?_⟩
        · have := hrec.1 e' he'
          constructor
          · rw [this.1, sleep_store, hpres.1]
          · rw [this.2, sleep_p2p, hpres.2]
        · have := hrec.2 a ha
          constructor
          · exact this.1
          · rw [this.2, sleep_p2p, hpres.2, sleep_store, hpres.1]
      · simp only [hlt, if_false]
        exact ⟨fun e' _ => ⟨hpres.1, hpres.2⟩, fun a ha => absurd ha (by simp)⟩

lemma redisExists_ok (st : St) (x : Bool) :
    (redisExists st).1 = Except.ok x → x = st.store.isSome := by
  unfold redisExists
  rcases h : takeOracle st with ⟨ok, st'⟩
  have hs : st'.store = st.store := by
    have := takeOracle_store st
    rw [h] at this
    exact this
  cases ok <;> simp_all

lemma retryGo_exists (m : Nat) (name : String) :
    ∀ rem att st, ((retryGo redisExists m name rem att st).2.store = st.store ∧
      (retryGo redisExists m name rem att st).2.p2p = st.p2p) ∧
      (∀ x, (retryGo redisExists m name rem att st).1 = Except.ok x → x = st.store.isSome) := by
  intro rem
  induction rem with
  | zero => intro att st; exact ⟨⟨rfl, rfl⟩, by intro x hx; exact absurd hx (by simp [retryGo])⟩
  | succ n ih =>
    intro att st
    have hts := takeOracle_store st
    have htp := takeOracle_p2p st
    unfold retryGo
    rcases h : redisExists st with ⟨res, st'⟩
    have h2 : st' = (takeOracle st).2 := by
      have := redisExists_snd st
      rw [h] at this
      exact this
    have hs : st'.store = st.store := by rw [h2]; exact hts
    have hp : st'.p2p = st.p2p := by rw [h2]; exact htp
    cases res with
    | ok a =>
      have ha : a = st.store.isSome := by
        have := redisExists_ok st a
        rw [h] at this
        exact this rfl
      simp [ha, hs, hp]
    | error e =>
      by_cases hlt : att < m
      · simp only [hlt, if_true]
        have hrec := ih (att + 1) (sleep (backoffDelay att) st')
        refine ⟨⟨?_, ?_⟩, ?_⟩
        · rw [hrec.1.1, sleep_store, hs]
        · rw [hrec.1.2, sleep_p2p, hp]
        · intro x hx
          have := hrec.2 x hx
          rw [this, sleep_store, hs]
      · simp [hlt, hs, hp]

lemma getJob_snd (id : String) (st : St) :
    (getJob id st).2.store = st.store ∧ (getJob id st).2.p2p = st.p2p := by
  unfold getJob
  by_cases hid : id = ""
  · simp [hid]
  · simp only [hid, if_false]
    have := retryGo_get 3 "get job" 3 1 st
    rcases h : retryOperation redisGet 3 "get job" st with ⟨res, st'⟩
    unfold retryOperation at h
    rw [h] at this
    cases res <;> simpa using this.1

lemma getJob_ok (id : String) (st : St) (x : Option JobRecord) :
    (getJob id st).1 = Except.ok x → x = st.store := by
  unfold getJob
  by_cases hid : id = ""
  · simp [hid]
  · simp only [hid, if_false]
    have := retryGo_get 3 "get job" 3 1 st
    rcases h : retryOperation redisGet 3 "get job" st with ⟨res, st'⟩
    unfold retryOperation at h
    rw [h] at this
    cases res with
    | ok a =>
      intro hx
      simp only [Except.ok.injEq] at hx
      subst hx
      exact this.2 a rfl
    | error e => intro hx; exact absurd hx (by simp)

lemma updateJob_err (id : String) (u : JobUpdate) (st : St) (e : StorageError) :
    (updateJob id u st).1 = Except.error e →
      (updateJob id u st).2.store = st.store ∧ (updateJob id u st).2.p2p = st.p2p := by
  unfold updateJob
  by_cases hid : id = ""
  · simp [hid]
  · simp only [hid, if_false]
    have hg := getJob_snd id st
    rcases h : getJob id st with ⟨res, st'⟩
    rw [h] at hg
    cases res with
    | error e' => intro _; exact hg
    | ok v =>
      cases v with
      | none => intro _; exact hg
      | some existing =>
        dsimp only
        rcases h2 : retryOperation (redisSetex (mergeJob existing u)) 3 "update job" st' with ⟨res2, st''⟩
        have h2' : retryGo (redisSetex (mergeJob existing u)) 3 "update job" 3 1 st' = (res2, st'') := h2
        have hset := retryGo_setex (mergeJob existing u) 3 "update job" 3 1 st'
        rw [h2'] at hset
        cases res2 with
        | error e2 =>
          intro _
          have hpres := hset.1 e2 rfl
          simp only at hpres
          constructor
          · rw [hpres.1]; exact hg.1
          · rw [hpres.2]; exact hg.2
        | ok a => intro hx; exact absurd hx (by simp)

lemma updateJob_ok (id : String) (u : JobUpdate) (st : St) (r : JobRecord) :
    (updateJob id u st).1 = Except.ok r →
      ∃ k, st.store = some k ∧ r = mergeJob k u ∧ (updateJob id u st).2.store = some r := by
  unfold updateJob
  by_cases hid : id = ""
  · simp [hid]
  · simp only [hid, if_false]
    have hg := getJob_snd id st
    rcases h : getJob id st with ⟨res, st'⟩
    rw [h] at hg
    cases res with
    | error e' => intro hx; exact absurd hx (by simp)
    | ok v =>
      cases v with
      | none => intro hx; exact absurd hx (by simp)
      | some existing =>
        have hex : st.store = some existing := by
          have := getJob_ok id st (some existing)
          rw [h] at this
          exact (this rfl).symm
        dsimp only
        rcases h2 : retryOperation (redisSetex (mergeJob existing u)) 3 "update job" st' with ⟨res2, st''⟩
        have h2' : retryGo (redisSetex (mergeJob existing u)) 3 "update job" 3 1 st' = (res2, st'') := h2
        have hset := retryGo_setex (mergeJob existing u) 3 "update job" 3 1 st'
        rw [h2'] at hset
        cases res2 with
        | error e2 => intro hx; exact absurd hx (by simp)
        | ok a =>
          intro hx
          simp only [Except.ok.injEq] at hx
          subst hx
          have hst := (hset.2 a rfl).1
          simp only at hst
          exact ⟨existing, hex, rfl, hst⟩

lemma createJob_err (jd : JobRecord) (st : St) (e : StorageError) :
    (createJob jd st).1 = Except.error e →
      (createJob jd st).2.store = st.store ∧ (createJob jd st).2.p2p = st.p2p := by
  unfold createJob
  by_cases h1 : jd.job_id = ""
  · simp [h1]
  · simp only [h1, if_false]
    by_cases h2 : jd.url = ""
    · simp [h2]
    · simp only [h2, if_false]
      rcases h3 : retryOperation redisExists 1 "check job existence" st with ⟨res, st'⟩
      have h3' : retryGo redisExists 1 "check job existence" 1 1 st = (res, st') := h3
      have hex := retryGo_exists 1 "check job existence" 1 1 st
      rw [h3'] at hex
      cases res with
      | error e1 => intro _; exact hex.1
      | ok b =>
        cases b with
        | true => intro _; exact hex.1
        | false =>
          simp only [Bool.false_eq_true, if_false]
          rcases h4 : retryOperation (redisSetex jd) 1 "create job" st' with ⟨res2, st''⟩
          have h4' : retryGo (redisSetex jd) 1 "create job" 1 1 st' = (res2, st'') := h4
          have hset := retryGo_setex jd 1 "create job" 1 1 st'
          rw [h4'] at hset
          cases res2 with
          | error e2 =>
            intro _
            have hpres := hset.1 e2 rfl
            simp only at hpres
            constructor
            · rw [hpres.1]; exact hex.1.1
            · rw [hpres.2]; exact hex.1.2
          | ok a => intro hx; exact absurd hx (by simp)

lemma takeOracle_nil (st : St) (h : st.oracle = []) : takeOracle st = (true, st) := by
  simp [takeOracle, h]

lemma redisGet_nil (st : St) (h : st.oracle = []) :
    redisGet st = (Except.ok st.store, st) := by
  simp [redisGet, takeOracle_nil st h]

lemma redisExists_nil (st : St) (h : st.oracle = []) :
    redisExists st = (Except.ok st.store.isSome, st) := by
  simp [redisExists, takeOracle_nil st h]

lemma redisSetex_nil (v : JobRecord) (st : St) (h : st.oracle = []) :
    redisSetex v st = (Except.ok (),
      { st with store := some v
                p2p := st.p2p + (if isClaimWrite st.store v then 1 else 0) }) := by
  simp [redisSetex, takeOracle_nil st h]

lemma retryOperation_get_nil (m : Nat) (hm : m ≠ 0) (name : String) (st : St)
    (h : st.oracle = []) : retryOperation redisGet m name st = (Except.ok st.store, st) := by
  cases m with
  | zero => exact absurd rfl hm
  | succ n => simp [retryOperation, retryGo, redisGet_nil st h]

lemma retryOperation_exists_nil (m : Nat) (hm : m ≠ 0) (name : String) (st : St)
    (h : st.oracle = []) :
    retryOperation redisExists m name st = (Except.ok st.store.isSome, st) := by
  cases m with
  | zero => exact absurd rfl hm
  | succ n => simp [retryOperation, retryGo, redisExists_nil st h]

lemma retryOperation_setex_nil (v : JobRecord) (m : Nat) (hm : m ≠ 0) (name : String)
    (st : St) (h : st.oracle = []) :
    retryOperation (redisSetex v) m name st = (Except.ok (),
      { st with store := some v
                p2p := st.p2p + (if isClaimWrite st.store v then 1 else 0) }) := by
  cases m with
  | zero => exact absurd rfl hm
  | succ n => simp [retryOperation, retryGo, redisSetex_nil v st h, h]

lemma getJob_nil (id : String) (st : St) (hid : id ≠ "") (h : st.oracle = []) :
    getJob id st = (Except.ok st.store, st) := by
  simp [getJob, hid, retryOperation_get_nil 3 (by norm_num) "get job" st h]

lemma updateJob_nil_some (id : String) (u : JobUpdate) (st : St) (j : JobRecord)
    (hid : id ≠ "") (h : st.oracle = []) (hj : st.store = some j) :
    updateJob id u st = (Except.ok (mergeJob j u),
      { st with store := some (mergeJob j u)
                p2p := st.p2p + (if isClaimWrite (some j) (mergeJob j u) then 1 else 0) }) := by
  simp [updateJob, hid, getJob_nil id st hid h, hj,
    retryOperation_setex_nil (mergeJob j u) 3 (by norm_num) "update job" st h]

lemma updateJobIfPending_nil_none (id : String) (u : JobUpdate) (st : St)
    (h : st.oracle = []) (hj : st.store = none) :
    updateJobIfPending id u st = (false, st) := by
  by_cases hid : id = ""
  · simp [updateJobIfPending, hid]
  · simp [updateJobIfPending, hid, getJob_nil id st hid h, hj]

lemma updateJobIfPending_nil_notPending (id : String) (u : JobUpdate) (st : St)
    (j : JobRecord) (h : st.oracle = []) (hj : st.store = some j)
    (hs : j.status ≠ JobStatus.PENDING) :
    updateJobIfPending id u st = (false, st) := by
  by_cases hid : id = ""
  · simp [updateJobIfPending, hid]
  · simp [updateJobIfPending, hid, getJob_nil id st hid h, hj, hs]

lemma updateJobIfPending_nil_pending (id : String) (u : JobUpdate) (st : St)
    (j : JobRecord) (hid : id ≠ "") (h : st.oracle = []) (hj : st.store = some j)
    (hs : j.status = JobStatus.PENDING) :
    updateJobIfPending id u st = (true,
      { st with store := some (mergeJob j u)
                p2p := st.p2p + (if isClaimWrite (some j) (mergeJob j u) then 1 else 0) }) := by
  simp [updateJobIfPending, hid, getJob_nil id st hid h, hj, hs,
    updateJob_nil_some id u st j hid h hj]

lemma processJob_noop (f : FetchOutcome) (p : ParseOutcome) (id url : String) (st : St)
    (j : JobRecord) (h : st.oracle = []) (hj : st.store = some j)
    (hs : j.status ≠ JobStatus.PENDING) :
    processJob f p id url st = (Except.ok alreadyHandled, st) := by
  simp [processJob, updateJobIfPending_nil_notPending id _ st j h hj hs, alreadyHandled]

lemma mergeJob_status_set (j : JobRecord) (u : JobUpdate) (s : JobStatus)
    (hu : u.status = some s) : (mergeJob j u).status = s := by
  simp [mergeJob, hu]

lemma isClaimWrite_pending_processing (j : JobRecord) (u : JobUpdate)
    (hj : j.status = JobStatus.PENDING) (hu : u.status = some JobStatus.PROCESSING) :
    isClaimWrite (some j) (mergeJob j u) = true := by
  simp [isClaimWrite, hj, mergeJob_status_set j u _ hu]

lemma isClaimWrite_not_pending (j : JobRecord) (v : JobRecord)
    (hj : j.status ≠ JobStatus.PENDING) : isClaimWrite (some j) v = false := by
  simp [isClaimWrite, hj]

lemma processJob_from_pending (f : FetchOutcome) (p : ParseOutcome) (id url : String)
    (st : St) (j : JobRecord) (hid : id ≠ "") (h : st.oracle = []) (hj : st.store = some j)
    (hs : j.status = JobStatus.PENDING) :
    ∃ r : JobRecord, (processJob f p id url st).2 =
        { st with store := some r, p2p := st.p2p + 1 } ∧
      r.status ≠ JobStatus.PENDING := by
  have hclaim := updateJobIfPending_nil_pending id
    { status := some JobStatus.PROCESSING } st j hid h hj hs
  rw [isClaimWrite_pending_processing j _ hs rfl] at hclaim
  norm_num at hclaim
  have hjPstatus : (mergeJob j { status := some JobStatus.PROCESSING }).status
      = JobStatus.PROCESSING := mergeJob_status_set j _ _ rfl
  have hnotP : (mergeJob j { status := some JobStatus.PROCESSING }).status
      ≠ JobStatus.PENDING := by rw [hjPstatus]; intro hc; cases hc
  have hupd' : ∀ u : JobUpdate,
      updateJob id u { st with store := some (mergeJob j { status := some JobStatus.PROCESSING })
                               p2p := st.p2p + 1 } =
        (Except.ok (mergeJob (mergeJob j { status := some JobStatus.PROCESSING }) u),
         { st with store := some (mergeJob (mergeJob j { status := some JobStatus.PROCESSING }) u)
                   p2p := st.p2p + 1 }) := by
    intro u
    rw [updateJob_nil_some id u
      { st with store := some (mergeJob j { status := some JobStatus.PROCESSING })
                p2p := st.p2p + 1 }
      (mergeJob j { status := some JobStatus.PROCESSING }) hid h rfl]
    rw [isClaimWrite_not_pending _ _ hnotP]
    norm_num
  cases f with
  | err msg etype retryable =>
    cases retryable with
    | true =>
      refine ⟨mergeJob (mergeJob j { status := some JobStatus.PROCESSING })
        { status := some JobStatus.FAILED,
          error := some (jsOrString msg "Unknown processing error"),
          error_type := some (jsOrProp (some etype) "UNKNOWN_ERROR") }, ?_, ?_⟩
      · simp only [processJob, hclaim, Bool.not_true, Bool.false_eq_true, if_false,
          processCatchAll]
        rw [hupd']
        simp
      · rw [mergeJob_status_set _ _ _ rfl]; intro hc; cases hc
    | false =>
      refine ⟨mergeJob (mergeJob j { status := some JobStatus.PROCESSING })
        { status := some JobStatus.FAILED,
          error := some msg, error_type := some etype }, ?_, ?_⟩
      · simp only [processJob, hclaim, Bool.not_true, Bool.false_eq_true, if_false]
        rw [hupd']
      · rw [mergeJob_status_set _ _ _ rfl]; intro hc; cases hc
  | ok html statusCode =>
    cases p with
    | err pmsg =>
      refine ⟨mergeJob (mergeJob j { status := some JobStatus.PROCESSING })
        { status := some JobStatus.FAILED,
          error := some ("Failed to parse HTML: " ++ pmsg),
          error_type := some "PARSE_ERROR" }, ?_, ?_⟩
      · simp only [processJob, hclaim, Bool.not_true, Bool.false_eq_true, if_false]
        rw [hupd']
      · rw [mergeJob_status_set _ _ _ rfl]; intro hc; cases hc
    | ok results =>
      refine ⟨mergeJob (mergeJob j { status := some JobStatus.PROCESSING })
        { status := some JobStatus.COMPLETED,
          results := some results, http_status_code := some statusCode }, ?_, ?_⟩
      · simp only [processJob, hclaim, Bool.not_true, Bool.false_eq_true, if_false]
        rw [hupd']
      · rw [mergeJob_status_set _ _ _ rfl]; intro hc; cases hc

lemma retryOperation_get_fail3 (name : String) (st : St) (h : st.oracle = [false, false, false]) :
    retryOperation redisGet 3 name st =
      (Except.error (retryFail name 3),
       { st with oracle := [], slept := st.slept ++ [100] ++ [200] }) := by
  obtain ⟨store, oracle, slept, p2p⟩ := st
  simp only at h
  subst h
  rfl

/-- C1: the worker-side claim of a delivered work item is idempotent.
If the stored status is not PENDING, `processJob` is a pure no-op: it
resolves to `{success: false, reason: "Job already processing or
completed"}`, leaves the state untouched, and its behaviour does not
depend on the fetch or parse outcome (nothing is fetched, parsed or
written).  And delivering the same work item twice starting from a
PENDING record performs exactly one PENDING-to-PROCESSING transition
(the ghost `p2p` counter increases by exactly 1 over both deliveries,
and the second delivery is the no-op above). -/
theorem c1_worker_claim_idempotent (f f' : FetchOutcome) (p p' : ParseOutcome)
    (id url url' : String) (st : St) (j : JobRecord) :
    (st.oracle = [] → st.store = some j → j.status ≠ JobStatus.PENDING →
      processJob f p id url st = (Except.ok alreadyHandled, st)) ∧
    (st.oracle = [] → st.store = some j → j.status = JobStatus.PENDING → id ≠ "" →
      (processJob f p id url st).2.p2p = st.p2p + 1 ∧
      processJob f' p' id url' (processJob f p id url st).2 =
        (Except.ok alreadyHandled, (processJob f p id url st).2)) := by
  constructor
  · intro h hj hs
    exact processJob_noop f p id url st j h hj hs
  · intro h hj hs hid
    obtain ⟨r, hst, hr⟩ := processJob_from_pending f p id url st j hid h hj hs
    constructor
    · rw [hst]
    · exact processJob_noop f' p' id url' _ r (by rw [hst]; exact h) (by rw [hst]) hr

/-- Witness for C1 at a concrete COMPLETED record (no-op part) and a
concrete PENDING record (idempotence part). -/
theorem c1_worker_claim_idempotent_witness :
    (processJob (FetchOutcome.ok "<html></html>" 200) (ParseOutcome.ok "meta")
        "1700000000000000001" "https://example.com"
        { store := some { job_id := "1700000000000000001", url := "https://example.com",
                          status := JobStatus.COMPLETED } } =
      (Except.ok alreadyHandled,
       { store := some { job_id := "1700000000000000001", url := "https://example.com",
                         status := JobStatus.COMPLETED } })) ∧
    ((processJob (FetchOutcome.ok "<html></html>" 200) (ParseOutcome.ok "meta")
        "1700000000000000001" "https://example.com"
        { store := some { job_id := "1700000000000000001", url := "https://example.com",
                          status := JobStatus.PENDING } }).2.p2p =
      ({ store := some { job_id := "1700000000000000001", url := "https://example.com",
                         status := JobStatus.PENDING } } : St).p2p + 1 ∧
     processJob (FetchOutcome.err "URL not found (HTTP 404)" "NETWORK_ERROR" false)
        (ParseOutcome.ok "meta") "1700000000000000001" "https://example.com"
        (processJob (FetchOutcome.ok "<html></html>" 200) (ParseOutcome.ok "meta")
          "1700000000000000001" "https://example.com"
          { store := some { job_id := "1700000000000000001", url := "https://example.com",
                            status := JobStatus.PENDING } }).2 =
       (Except.ok alreadyHandled,
        (processJob (FetchOutcome.ok "<html></html>" 200) (ParseOutcome.ok "meta")
          "1700000000000000001" "https://example.com"
          { store := some { job_id := "1700000000000000001", url := "https://example.com",
                            status := JobStatus.PENDING } }).2)) :=
  ⟨(c1_worker_claim_idempotent (FetchOutcome.ok "<html></html>" 200)
      (FetchOutcome.ok "<html></html>" 200) (ParseOutcome.ok "meta") (ParseOutcome.ok "meta")
      "1700000000000000001" "https://example.com" "https://example.com"
      { store := some { job_id := "1700000000000000001", url := "https://example.com",
                        status := JobStatus.COMPLETED } }
      { job_id := "1700000000000000001", url := "https://example.com",
        status := JobStatus.COMPLETED }).1 rfl rfl (by decide),
   (c1_worker_claim_idempotent (FetchOutcome.ok "<html></html>" 200)
      (FetchOutcome.err "URL not found (HTTP 404)" "NETWORK_ERROR" false)
      (ParseOutcome.ok "meta") (ParseOutcome.ok "meta")
      "1700000000000000001" "https://example.com" "https://example.com"
      { store := some { job_id := "1700000000000000001", url := "https://example.com",
                        status := JobStatus.PENDING } }
      { job_id := "1700000000000000001", url := "https://example.com",
        status := JobStatus.PENDING }).2 rfl rfl rfl (by decide)⟩

/-- C10: `updateJobIfPending` is total at its interface: it always
returns a boolean (its Lean type is `Bool × St`, every thrown error
being caught).  It returns `true` only when the stored record existed
with status PENDING, in which case the store holds the record merged
with the given fields; whenever it returns `false` the store is
unchanged; and it returns `false` when the record is absent, when the
stored status is not PENDING, and when the storage backend fails (three
consecutive failed read attempts), indistinguishably from the
already-claimed case. -/
theorem c10_updateJobIfPending_total (id : String) (u : JobUpdate) (st : St) (j : JobRecord) :
    ((updateJobIfPending id u st).1 = true →
      ∃ k, st.store = some k ∧ k.status = JobStatus.PENDING ∧
        (updateJobIfPending id u st).2.store = some (mergeJob k u)) ∧
    ((updateJobIfPending id u st).1 = false →
      (updateJobIfPending id u st).2.store = st.store) ∧
    (st.oracle = [] → st.store = none → (updateJobIfPending id u st).1 = false) ∧
    (st.oracle = [] → st.store = some j → j.status ≠ JobStatus.PENDING →
      (updateJobIfPending id u st).1 = false) ∧
    (id ≠ "" → st.oracle = [false, false, false] → (updateJobIfPending id u st).1 = false) := by
  refine ⟨?_, ?_, ?_, ?_, ?_⟩
  · -- true implies the record was PENDING and is now the merged record
    unfold updateJobIfPending
    by_cases hid : id = ""
    · simp [hid]
    · simp only [hid, if_false]
      have hg := getJob_snd id st
      rcases h : getJob id st with ⟨res, st'⟩
      rw [h] at hg
      cases res with
      | error e => intro hx; exact absurd hx (by simp)
      | ok v =>
        cases v with
        | none => intro hx; exact absurd hx (by simp)
        | some job =>
          have hjob : st.store = some job := by
            have := getJob_ok id st (some job)
            rw [h] at this
            exact (this rfl).symm
          by_cases hpend : job.status = JobStatus.PENDING
          · simp only [hpend, ne_eq, not_true_eq_false, Bool.false_eq_true, if_false]
            rcases h2 : updateJob id u st' with ⟨res2, st''⟩
            cases res2 with
            | error e2 => intro hx; exact absurd hx (by simp)
            | ok r =>
              intro _
              refine ⟨job, hjob, hpend, ?_⟩
              have := updateJob_ok id u st' r
              rw [h2] at this
              obtain ⟨k, hk, hrk, hst⟩ := this rfl
              rw [hg.1] at hk
              rw [hjob] at hk
              cases hk
              simp only
              rw [hst, hrk]
          · simp [hpend]
  · -- false implies the store is unchanged
    unfold updateJobIfPending
    by_cases hid : id = ""
    · simp [hid]
    · simp only [hid, if_false]
      have hg := getJob_snd id st
      rcases h : getJob id st with ⟨res, st'⟩
      rw [h] at hg
      cases res with
      | error e => intro _; exact hg.1
      | ok v =>
        cases v with
        | none => intro _; exact hg.1
        | some job =>
          by_cases hpend : job.status = JobStatus.PENDING
          · simp only [hpend, ne_eq, not_true_eq_false, Bool.false_eq_true, if_false]
            rcases h2 : updateJob id u st' with ⟨res2, st''⟩
            cases res2 with
            | error e2 =>
              intro _
              have := updateJob_err id u st' e2
              rw [h2] at this
              have hpres := this rfl
              simp only at hpres
              rw [hpres.1]
              exact hg.1
            | ok r => intro hx; exact absurd hx (by simp)
          · simp only [hpend, ne_eq, not_false_eq_true, if_true]
            intro _
            exact hg.1
  · intro h hnone
    rw [updateJobIfPending_nil_none id u st h hnone]
  · intro h hj hs
    rw [updateJobIfPending_nil_notPending id u st j h hj hs]
  · intro hid horacle
    unfold updateJobIfPending
    simp only [hid, if_false]
    have : getJob id st = (Except.error (retryFail "get job" 3),
        { st with oracle := [], slept := st.slept ++ [100] ++ [200] }) := by
      simp [getJob, hid, retryOperation_get_fail3 "get job" st horacle]
    rw [this]

/-- Witness for C10: at a concrete PENDING record the update takes effect
and merges the fields; at an absent record, a COMPLETED record, and a
three-failure backend the call reports `false`. -/
theorem c10_updateJobIfPending_total_witness :
    ((updateJobIfPending "1700000000000000001"
        { status := some JobStatus.PROCESSING }
        { store := some { job_id := "1700000000000000001", url := "https://example.com",
                          status := JobStatus.PENDING } }).1 = true →
      ∃ k, (some { job_id := "1700000000000000001", url := "https://example.com",
                   status := JobStatus.PENDING } : Option JobRecord) = some k ∧
        k.status = JobStatus.PENDING ∧
        (updateJobIfPending "1700000000000000001" { status := some JobStatus.PROCESSING }
          { store := some { job_id := "1700000000000000001", url := "https://example.com",
                            status := JobStatus.PENDING } }).2.store =
          some (mergeJob k { status := some JobStatus.PROCESSING })) ∧
    ((updateJobIfPending "1700000000000000001" { status := some JobStatus.PROCESSING }
        { store := none, oracle := [] }).1 = false) ∧
    ((updateJobIfPending "1700000000000000001" { status := some JobStatus.PROCESSING }
        { store := some { job_id := "1700000000000000001", url := "https://example.com",
                          status := JobStatus.COMPLETED } }).1 = false) ∧
    ((updateJobIfPending "1700000000000000001" { status := some JobStatus.PROCESSING }
        { store := some { job_id := "1700000000000000001", url := "https://example.com",
                          status := JobStatus.PENDING },
          oracle := [false, false, false] }).1 = false) :=
  ⟨(c10_updateJobIfPending_total "1700000000000000001" { status := some JobStatus.PROCESSING }
      { store := some { job_id := "1700000000000000001", url := "https://example.com",
                        status := JobStatus.PENDING } }
      { job_id := "1700000000000000001", url := "https://example.com",
        status := JobStatus.PENDING }).1,
   (c10_updateJobIfPending_total "1700000000000000001" { status := some JobStatus.PROCESSING }
      { store := none, oracle := [] }
      { job_id := "1700000000000000001", url := "https://example.com",
        status := JobStatus.PENDING }).2.2.1 rfl rfl,
   (c10_updateJobIfPending_total "1700000000000000001" { status := some JobStatus.PROCESSING }
      { store := some { job_id := "1700000000000000001", url := "https://example.com",
                        status := JobStatus.COMPLETED } }
      { job_id := "1700000000000000001", url := "https://example.com",
        status := JobStatus.COMPLETED }).2.2.2.1 rfl rfl (by decide),
   (c10_updateJobIfPending_total "1700000000000000001" { status := some JobStatus.PROCESSING }
      { store := some { job_id := "1700000000000000001", url := "https://example.com",
                        status := JobStatus.PENDING },
        oracle := [false, false, false] }
      { job_id := "1700000000000000001", url := "https://example.com",
        status := JobStatus.PENDING }).2.2.2.2 (by decide) rfl⟩

lemma createJob_nil_empty (jd : JobRecord) (st : St) (h1 : jd.job_id ≠ "") (h2 : jd.url ≠ "")
    (h : st.oracle = []) (hst : st.store = none) :
    createJob jd st = (Except.ok jd, { st with store := some jd }) := by
  simp [createJob, h1, h2, retryOperation_exists_nil 1 (by norm_num) _ st h, hst,
    retryOperation_setex_nil jd 1 (by norm_num) _ st h, isClaimWrite]

/-- C2: submission never leaves a dangling PENDING record.  If the store
write fails the controller answers 503 StorageUnavailable, the store is
unchanged and nothing is ever enqueued.  If the enqueue fails after the
record was stored the controller answers 503 QueueUnavailable with
nothing enqueued, and (when the best-effort update goes through, e.g. on
a recovered backend) the stored record has been transitioned to FAILED
with error "Failed to queue job". -/
theorem c2_no_dangling_pending (deps : AnalyseDeps) (url id : String) (st : St)
    (q : List WorkItem) (hval : deps.valid = true) :
    (∀ e, (createJob { job_id := id, url := url, status := JobStatus.PENDING } st).1 =
        Except.error e →
      analyseUrl deps url id st q =
        ({ statusCode := 503, error := some "Storage system is unavailable",
           message := some "Failed to create job. Please try again." },
         (createJob { job_id := id, url := url, status := JobStatus.PENDING } st).2, q) ∧
      (createJob { job_id := id, url := url, status := JobStatus.PENDING } st).2.store =
        st.store) ∧
    (∀ r, (createJob { job_id := id, url := url, status := JobStatus.PENDING } st).1 =
        Except.ok r → deps.enqueueOk = false →
      (analyseUrl deps url id st q).1.statusCode = 503 ∧
      (analyseUrl deps url id st q).1.error =
        some "Queue system is down, please try again later" ∧
      (analyseUrl deps url id st q).2.2 = q) ∧
    (st.oracle = [] → st.store = none → id ≠ "" → url ≠ "" → deps.enqueueOk = false →
      (analyseUrl deps url id st q).2.1.store =
        some { job_id := id, url := url, status := JobStatus.FAILED,
               error := some "Failed to queue job" } ∧
      (analyseUrl deps url id st q).1.statusCode = 503 ∧
      (analyseUrl deps url id st q).2.2 = q) := by
  refine ⟨?_, ?_, ?_⟩
  · intro e he
    have hpres := createJob_err { job_id := id, url := url, status := JobStatus.PENDING } st e he
    constructor
    · unfold analyseUrl
      simp only [hval, Bool.not_true, Bool.false_eq_true, if_false]
      rcases h : createJob { job_id := id, url := url, status := JobStatus.PENDING } st
        with ⟨res, st'⟩
      rw [h] at he
      cases res with
      | error e2 => simp at he; subst he; rfl
      | ok r => exact absurd he (by simp)
    · exact hpres.1
  · intro r hr henq
    unfold analyseUrl
    simp only [hval, Bool.not_true, Bool.false_eq_true, if_false]
    rcases h : createJob { job_id := id, url := url, status := JobStatus.PENDING } st
      with ⟨res, st'⟩
    rw [h] at hr
    cases res with
    | error e2 => exact absurd hr (by simp)
    | ok r2 =>
      simp only [henq, Bool.false_eq_true, if_false]
      exact ⟨trivial, trivial, trivial⟩
  · intro h hnone hid hurl henq
    have hc := createJob_nil_empty { job_id := id, url := url, status := JobStatus.PENDING }
      st hid hurl h hnone
    have hupd := updateJob_nil_some id
      { status := some JobStatus.FAILED, error := some "Failed to queue job" }
      { st with store := some { job_id := id, url := url, status := JobStatus.PENDING } }
      { job_id := id, url := url, status := JobStatus.PENDING } hid h rfl
    unfold analyseUrl
    simp only [hval, Bool.not_true, Bool.false_eq_true, if_false, hc, henq, hupd,
      isClaimWrite, mergeJob]
    simp

/-- Witness for C2: a concrete submission against a dead backend (503,
nothing enqueued, store untouched) and against a healthy store with a
dead queue (503, record forced to FAILED, nothing enqueued). -/
theorem c2_no_dangling_pending_witness :
    (analyseUrl { valid := true, enqueueOk := true } "https://example.com"
        "1700000000000000001" { oracle := [false] } [] =
      ({ statusCode := 503, error := some "Storage system is unavailable",
         message := some "Failed to create job. Please try again." },
       (createJob { job_id := "1700000000000000001", url := "https://example.com",
                    status := JobStatus.PENDING } { oracle := [false] }).2, []) ∧
     (createJob { job_id := "1700000000000000001", url := "https://example.com",
                  status := JobStatus.PENDING } { oracle := [false] }).2.store =
       (({ oracle := [false] } : St)).store) ∧
    ((analyseUrl { valid := true, enqueueOk := false } "https://example.com"
        "1700000000000000001" {} []).2.1.store =
      some { job_id := "1700000000000000001", url := "https://example.com",
             status := JobStatus.FAILED, error := some "Failed to queue job" } ∧
     (analyseUrl { valid := true, enqueueOk := false } "https://example.com"
        "1700000000000000001" {} []).1.statusCode = 503 ∧
     (analyseUrl { valid := true, enqueueOk := false } "https://example.com"
        "1700000000000000001" {} []).2.2 = []) :=
  ⟨(c2_no_dangling_pending { valid := true, enqueueOk := true } "https://example.com"
      "1700000000000000001" { oracle := [false] } [] rfl).1
      (retryFail "check job existence" 1) rfl,
   (c2_no_dangling_pending { valid := true, enqueueOk := false } "https://example.com"
      "1700000000000000001" {} [] rfl).2.2 rfl rfl (by decide) (by decide) rfl⟩

/-- C9: what a successful submission actually persists.  The controller
computes an ISO timestamp but never stores it: the record written for a
valid URL with healthy backends is exactly
`{job_id, url, status: PENDING}` — its `created_at` field is absent —
even though the work item is enqueued.  (The cleanup sweeper and the
repository's own documented schema expect `created_at` on the stored
record.) -/
theorem c9_record_stored_without_created_at (deps : AnalyseDeps) (url id : String)
    (st : St) (q : List WorkItem) (hval : deps.valid = true) (henq : deps.enqueueOk = true)
    (h : st.oracle = []) (hnone : st.store = none) (hid : id ≠ "") (hurl : url ≠ "") :
    (analyseUrl deps url id st q).2.1.store =
      some { job_id := id, url := url, status := JobStatus.PENDING } ∧
    (∀ r, (analyseUrl deps url id st q).2.1.store = some r → r.created_at = none) ∧
    (analyseUrl deps url id st q).2.2 = q ++ [{ job_id := id, url := url }] := by
  have hc := createJob_nil_empty { job_id := id, url := url, status := JobStatus.PENDING }
    st hid hurl h hnone
  unfold analyseUrl
  simp only [hval, Bool.not_true, Bool.false_eq_true, if_false, hc, henq, if_true]
  refine ⟨trivial, ?_, trivial⟩
  intro r hr
  simp only [Option.some.injEq] at hr
  subst hr
  rfl

/-- Witness for C9: the concrete record stored when submitting
`https://example.com` has no `created_at`. -/
theorem c9_record_stored_without_created_at_witness :
    (analyseUrl { valid := true, enqueueOk := true } "https://example.com"
        "1700000000000000001" {} []).2.1.store =
      some { job_id := "1700000000000000001", url := "https://example.com",
             status := JobStatus.PENDING } ∧
    (∀ r, (analyseUrl { valid := true, enqueueOk := true } "https://example.com"
        "1700000000000000001" {} []).2.1.store = some r → r.created_at = none) ∧
    (analyseUrl { valid := true, enqueueOk := true } "https://example.com"
        "1700000000000000001" {} []).2.2 =
      [] ++ [{ job_id := "1700000000000000001", url := "https://example.com" }] :=
  c9_record_stored_without_created_at { valid := true, enqueueOk := true }
    "https://example.com" "1700000000000000001" {} [] rfl rfl rfl rfl
    (by decide) (by decide)

lemma isValidJobId_ne_empty (id : String) (hv : isValidJobId (JsValue.str id) = true) :
    id ≠ "" := by
  intro hid
  subst hid
  exact absurd hv (by decide)

/-- C5: the status query's derived-view rule.  `getResults` never writes
to the store, and a stored PENDING record is presented as PROCESSING
exactly when the queue reports the work item found with position > 0;
when the position is 0, negative, or the item is unknown, PENDING is
presented as stored. -/
theorem c5_pending_presented_as_processing (id : String) (qm : QueueModel) (st : St)
    (j : JobRecord) :
    ((getResults id qm st).2.store = st.store) ∧
    (st.oracle = [] → st.store = some j → j.status = JobStatus.PENDING →
      isValidJobId (JsValue.str id) = true →
      (((getResults id qm st).1.jobStatus = some JobStatus.PROCESSING) ↔
        ((getJobInfo qm).found = true ∧ (getJobInfo qm).position > 0)) ∧
      (¬((getJobInfo qm).found = true ∧ (getJobInfo qm).position > 0) →
        (getResults id qm st).1.jobStatus = some JobStatus.PENDING)) := by
  constructor
  · unfold getResults
    by_cases hv : isValidJobId (JsValue.str id) = true
    · simp only [hv, Bool.not_true, Bool.false_eq_true, if_false]
      have hg := getJob_snd id st
      rcases h : getJob id st with ⟨res, st₁⟩
      rw [h] at hg
      cases res with
      | error e => exact hg.1
      | ok v =>
        cases v with
        | none => exact hg.1
        | some job =>
          cases hjs : job.status <;> simp only [hjs] <;> first
            | exact hg.1
            | (split <;> exact hg.1)
    · simp only [Bool.not_eq_true] at hv
      simp [hv]
  · intro h hj hs hv
    have hid : id ≠ "" := isValidJobId_ne_empty id hv
    unfold getResults
    simp only [hv, Bool.not_true, Bool.false_eq_true, if_false,
      getJob_nil id st hid h, hj, hs]
    by_cases hfp : (getJobInfo qm).found = true ∧ (getJobInfo qm).position > 0
    · have hb : ((getJobInfo qm).found && decide ((getJobInfo qm).position > 0)) = true := by
        rw [hfp.1]
        simp [hfp.2]
      simp [hb, hfp]
    · have hb : ((getJobInfo qm).found && decide ((getJobInfo qm).position > 0)) = false := by
        rcases Decidable.not_and_iff_or_not.mp hfp with hf | hp
        · simp [Bool.not_eq_true] at hf
          simp [hf]
        · simp [hp]
      simp [hb, hfp]

/-- Witness for C5 at a concrete stored PENDING record and a queue
reporting the item waiting at position 3. -/
theorem c5_pending_presented_as_processing_witness :
    ((getResults "1700000000000000001"
        { job := some BullState.waiting, waitingIdx := some 2 }
        { store := some { job_id := "1700000000000000001", url := "https://example.com",
                          status := JobStatus.PENDING } }).2.store =
      ({ store := some { job_id := "1700000000000000001", url := "https://example.com",
                         status := JobStatus.PENDING } } : St).store) ∧
    ((getResults "1700000000000000001"
        { job := some BullState.waiting, waitingIdx := some 2 }
        { store := some { job_id := "1700000000000000001", url := "https://example.com",
                          status := JobStatus.PENDING } }).1.jobStatus =
        some JobStatus.PROCESSING ↔
      ((getJobInfo { job := some BullState.waiting, waitingIdx := some 2 }).found = true ∧
       (getJobInfo { job := some BullState.waiting, waitingIdx := some 2 }).position > 0)) :=
  ⟨(c5_pending_presented_as_processing "1700000000000000001"
      { job := some BullState.waiting, waitingIdx := some 2 }
      { store := some { job_id := "1700000000000000001", url := "https://example.com",
                        status := JobStatus.PENDING } }
      { job_id := "1700000000000000001", url := "https://example.com",
        status := JobStatus.PENDING }).1,
   ((c5_pending_presented_as_processing "1700000000000000001"
      { job := some BullState.waiting, waitingIdx := some 2 }
      { store := some { job_id := "1700000000000000001", url := "https://example.com",
                        status := JobStatus.PENDING } }
      { job_id := "1700000000000000001", url := "https://example.com",
        status := JobStatus.PENDING }).2 rfl rfl rfl (by decide)).1⟩

/-- Counterexample to C6 as stated: with a backend that fails exactly
once and then recovers, `createJob` surfaces a `StorageError` from a
single attempt ("check job existence failed after 1 attempts") while
`getJob` under the same fault succeeds; and the backoff slept before a
3-attempt operation surfaces failure is 100 ms then 200 ms — never
400 ms. -/
theorem c6_counterexample :
    ((createJob
        { job_id := "1700000000000000001", url := "https://example.com",
          status := JobStatus.PENDING } { oracle := [false] }).1 =
      Except.error (retryFail "check job existence" 1)) ∧
    ((getJob "1700000000000000001" { oracle := [false] }).1 = Except.ok none) ∧
    ((getJob "1700000000000000001" { oracle := [false, false, false] }).2.slept =
      [100, 200]) ∧
    ((getJob "1700000000000000001" { oracle := [false, false, false] }).2.slept ≠
      [100, 200, 400]) :=
  ⟨rfl, rfl, rfl, by decide⟩

/-- C6 (amended): `getJob` and `updateJob` retry a failing backend
operation up to 3 attempts, sleeping 100 ms then 200 ms between
attempts, before surfacing a `StorageError`; `createJob`, however,
performs its existence check and its write with a single attempt each
(`retryOperation(.., 1, ..)`), surfacing a `StorageError` on the first
backend failure without any retry or backoff. -/
theorem c6_storage_retry_policy (st : St) (id : String) (u : JobUpdate) (j jd : JobRecord)
    (rest : List Bool) (hid : id ≠ "") (hjd1 : jd.job_id ≠ "") (hjd2 : jd.url ≠ "") :
    (getJob id { st with oracle := [false, false, true] ++ rest } =
      (Except.ok st.store,
       { st with oracle := rest, slept := st.slept ++ [100] ++ [200] })) ∧
    (getJob id { st with oracle := [false, false, false] ++ rest } =
      (Except.error (retryFail "get job" 3),
       { st with oracle := rest, slept := st.slept ++ [100] ++ [200] })) ∧
    ((updateJob id u
        { st with store := some j, oracle := [true, false, false, false] ++ rest }).1 =
      Except.error (retryFail "update job" 3)) ∧
    (createJob jd { st with oracle := false :: rest } =
      (Except.error (retryFail "check job existence" 1), { st with oracle := rest })) ∧
    (createJob jd { st with store := none, oracle := true :: false :: rest } =
      (Except.error (retryFail "create job" 1), { st with store := none, oracle := rest })) := by
  obtain ⟨store, oracle, slept, p2p⟩ := st
  refine ⟨?_, ?_, ?_, ?_, ?_⟩
  · simp only [getJob, hid, if_false]
    rfl
  · simp only [getJob, hid, if_false]
    rfl
  · simp only [updateJob, getJob, hid, if_false]
    rfl
  · simp only [createJob, hjd1, hjd2, if_false]
    rfl
  · simp only [createJob, hjd1, hjd2, if_false]
    rfl

/-- Witness for C6 (amended) at concrete ids, records and oracle
streams. -/
theorem c6_storage_retry_policy_witness :
    (getJob "1700000000000000001" { oracle := [false, false, true] } =
      (Except.ok none, { oracle := [], slept := [] ++ [100] ++ [200] })) ∧
    (getJob "1700000000000000001" { oracle := [false, false, false] } =
      (Except.error (retryFail "get job" 3),
       { oracle := [], slept := [] ++ [100] ++ [200] })) ∧
    ((updateJob "1700000000000000001" { status := some JobStatus.FAILED }
        { store := some { job_id := "1700000000000000001", url := "https://example.com",
                          status := JobStatus.PENDING },
          oracle := [true, false, false, false] }).1 =
      Except.error (retryFail "update job" 3)) ∧
    (createJob
        { job_id := "1700000000000000001", url := "https://example.com",
          status := JobStatus.PENDING } { oracle := [false] } =
      (Except.error (retryFail "check job existence" 1), { oracle := [] })) ∧
    (createJob
        { job_id := "1700000000000000001", url := "https://example.com",
          status := JobStatus.PENDING } { store := none, oracle := [true, false] } =
      (Except.error (retryFail "create job" 1), { store := none, oracle := [] })) := by
  have := c6_storage_retry_policy {} "1700000000000000001" { status := some JobStatus.FAILED }
    { job_id := "1700000000000000001", url := "https://example.com",
      status := JobStatus.PENDING }
    { job_id := "1700000000000000001", url := "https://example.com",
      status := JobStatus.PENDING }
    [] (by decide) (by decide) (by decide)
  exact this

lemma processJob_retryable_nil (msg etype : String) (p : ParseOutcome) (id url : String)
    (st : St) (j : JobRecord) (hid : id ≠ "") (h : st.oracle = []) (hj : st.store = some j)
    (hs : j.status = JobStatus.PENDING) :
    processJob (FetchOutcome.err msg etype true) p id url st =
      (Except.error ⟨msg, some etype⟩,
       { st with
         store := some (mergeJob (mergeJob j { status := some JobStatus.PROCESSING })
           { status := some JobStatus.FAILED,
             error := some (jsOrString msg "Unknown processing error"),
             error_type := some (jsOrProp (some etype) "UNKNOWN_ERROR") }),
         p2p := st.p2p + 1 }) := by
  have hclaim := updateJobIfPending_nil_pending id
    { status := some JobStatus.PROCESSING } st j hid h hj hs
  rw [isClaimWrite_pending_processing j _ hs rfl] at hclaim
  norm_num at hclaim
  have hnotP : (mergeJob j { status := some JobStatus.PROCESSING }).status
      ≠ JobStatus.PENDING := by
    rw [mergeJob_status_set j _ _ rfl]
    intro hc; cases hc
  have hupd' : ∀ u : JobUpdate,
      updateJob id u { st with store := some (mergeJob j { status := some JobStatus.PROCESSING })
                               p2p := st.p2p + 1 } =
        (Except.ok (mergeJob (mergeJob j { status := some JobStatus.PROCESSING }) u),
         { st with store := some (mergeJob (mergeJob j { status := some JobStatus.PROCESSING }) u)
                   p2p := st.p2p + 1 }) := by
    intro u
    rw [updateJob_nil_some id u
      { st with store := some (mergeJob j { status := some JobStatus.PROCESSING })
                p2p := st.p2p + 1 }
      (mergeJob j { status := some JobStatus.PROCESSING }) hid h rfl]
    rw [isClaimWrite_not_pending _ _ hnotP]
    norm_num
  simp only [processJob, hclaim, Bool.not_true, Bool.false_eq_true, if_false,
    processCatchAll]
  rw [hupd']
  simp

/-- Counterexample to C3 as stated: a concrete PENDING job whose fetch
fails with a retryable "Server error (HTTP 500)" on every attempt.  The
queue-level run with 3 attempts ends with the record FAILED carrying the
fetch error's message — not "exceeded retry attempts" — and the run
resolves on redelivery as a no-op rather than through an exhaustion
transition. -/
theorem c3_counterexample :
    ((bullRun (FetchOutcome.err "Server error (HTTP 500)" "NETWORK_ERROR" true)
        (ParseOutcome.ok "meta") "1700000000000000001" "https://example.com" 3
        { store := some { job_id := "1700000000000000001", url := "https://example.com",
                          status := JobStatus.PENDING } }).2.store =
      some { job_id := "1700000000000000001", url := "https://example.com",
             status := JobStatus.FAILED, error := some "Server error (HTTP 500)",
             error_type := some "NETWORK_ERROR" }) ∧
    ((bullRun (FetchOutcome.err "Server error (HTTP 500)" "NETWORK_ERROR" true)
        (ParseOutcome.ok "meta") "1700000000000000001" "https://example.com" 3
        { store := some { job_id := "1700000000000000001", url := "https://example.com",
                          status := JobStatus.PENDING } }).2.store.map JobRecord.error ≠
      some (some "exceeded retry attempts")) ∧
    ((bullRun (FetchOutcome.err "Server error (HTTP 500)" "NETWORK_ERROR" true)
        (ParseOutcome.ok "meta") "1700000000000000001" "https://example.com" 3
        { store := some { job_id := "1700000000000000001", url := "https://example.com",
                          status := JobStatus.PENDING } }).1 = some alreadyHandled) :=
  ⟨rfl, by decide, rfl⟩

/-- C3 (amended): on a retryable fetch failure the processor's catch-all
has already transitioned the record to FAILED with the fetch error's
message and type before rethrowing; the redelivered attempt is then an
`updateIfPending` no-op that resolves the job, so the queue never
performs an exhaustion-time transition — and its `failed` event handler
(worker.js) writes nothing in any case.  No "exceeded retry attempts"
error is ever written. -/
theorem c3_retryable_failure_already_failed (msg etype : String) (p : ParseOutcome)
    (id url : String) (st : St) (j : JobRecord) (hid : id ≠ "") (h : st.oracle = [])
    (hj : st.store = some j) (hs : j.status = JobStatus.PENDING)
    (hmsg : msg ≠ "") (hetype : etype ≠ "") :
    (bullRun (FetchOutcome.err msg etype true) p id url 3 st).1 = some alreadyHandled ∧
    (bullRun (FetchOutcome.err msg etype true) p id url 3 st).2 =
      { st with store := some { j with status := JobStatus.FAILED, error := some msg,
                                       error_type := some etype },
                p2p := st.p2p + 1 } ∧
    (∀ attemptsMade maxAttempts : Nat, ∀ s : St, onJobFailed attemptsMade maxAttempts s = s) := by
  have h1 := processJob_retryable_nil msg etype p id url st j hid h hj hs
  have hR : mergeJob (mergeJob j { status := some JobStatus.PROCESSING })
      { status := some JobStatus.FAILED,
        error := some (jsOrString msg "Unknown processing error"),
        error_type := some (jsOrProp (some etype) "UNKNOWN_ERROR") } =
      { j with status := JobStatus.FAILED, error := some msg, error_type := some etype } := by
    simp [mergeJob, jsOrString, jsOrProp, hmsg, hetype, Option.orElse]
  rw [hR] at h1
  have h2 := processJob_noop (FetchOutcome.err msg etype true) p id url
    { st with store := some { j with status := JobStatus.FAILED, error := some msg,
                                     error_type := some etype },
              p2p := st.p2p + 1 }
    { j with status := JobStatus.FAILED, error := some msg, error_type := some etype }
    h rfl (by simp)
  simp only [bullRun, bullProcess, h1, onJobFailed]
  norm_num
  rw [h2]
  exact ⟨rfl, rfl⟩

/-- Witness for C3 (amended) at a concrete PENDING record and a
retryable HTTP 500 fetch failure. -/
theorem c3_retryable_failure_already_failed_witness :
    (bullRun (FetchOutcome.err "Server error (HTTP 500)" "NETWORK_ERROR" true)
        (ParseOutcome.ok "meta") "1700000000000000001" "https://example.com" 3
        { store := some { job_id := "1700000000000000001", url := "https://example.com",
                          status := JobStatus.PENDING } }).1 = some alreadyHandled ∧
    (bullRun (FetchOutcome.err "Server error (HTTP 500)" "NETWORK_ERROR" true)
        (ParseOutcome.ok "meta") "1700000000000000001" "https://example.com" 3
        { store := some { job_id := "1700000000000000001", url := "https://example.com",
                          status := JobStatus.PENDING } }).2 =
      { ({ store := some { job_id := "1700000000000000001", url := "https://example.com",
                           status := JobStatus.PENDING } } : St) with
        store := some { ({ job_id := "1700000000000000001", url := "https://example.com",
                           status := JobStatus.PENDING } : JobRecord) with
                        status := JobStatus.FAILED,
                        error := some "Server error (HTTP 500)",
                        error_type := some "NETWORK_ERROR" },
        p2p := ({ store := some { job_id := "1700000000000000001",
                                  url := "https://example.com",
                                  status := JobStatus.PENDING } } : St).p2p + 1 } ∧
    (∀ attemptsMade maxAttempts : Nat, ∀ s : St, onJobFailed attemptsMade maxAttempts s = s) :=
  c3_retryable_failure_already_failed "Server error (HTTP 500)" "NETWORK_ERROR"
    (ParseOutcome.ok "meta") "1700000000000000001" "https://example.com"
    { store := some { job_id := "1700000000000000001", url := "https://example.com",
                      status := JobStatus.PENDING } }
    { job_id := "1700000000000000001", url := "https://example.com",
      status := JobStatus.PENDING }
    (by decide) rfl rfl rfl (by decide) (by decide)

/-- C4: the cleanup sweep can never mark a lost job.  `runCleanup`'s
first step calls `storageService.findOldPendingJobs`, which the storage
module does not export, so every run aborts through its `catch` with
zero jobs cleaned and the store untouched — shown for every input and
for a concrete PENDING job twenty minutes old that is absent from the
queue.  The per-job routine `cleanupJob`, were it ever reached, would
mark that job FAILED / TIMEOUT_ERROR with a retry-suggesting message. -/
theorem c4_cleanup_sweep_never_runs :
    (∀ (oldPendingJobs : List JobRecord) (qinfoOf : String → QueueInfo) (now : Nat)
        (store : List JobRecord), runCleanup oldPendingJobs qinfoOf now store = (0, store)) ∧
    (runCleanup
        [{ job_id := "1700000000000000001", url := "https://example.com",
           status := JobStatus.PENDING, created_at := some 1700000000000 }]
        (fun _ => { found := false, position := -1 }) 1700001200000
        [{ job_id := "1700000000000000001", url := "https://example.com",
           status := JobStatus.PENDING, created_at := some 1700000000000 }] =
      (0, [{ job_id := "1700000000000000001", url := "https://example.com",
             status := JobStatus.PENDING, created_at := some 1700000000000 }])) ∧
    ((cleanupJob 1700001200000 { found := false, position := -1 }
        { job_id := "1700000000000000001", url := "https://example.com",
          status := JobStatus.PENDING, created_at := some 1700000000000 }
        [{ job_id := "1700000000000000001", url := "https://example.com",
           status := JobStatus.PENDING, created_at := some 1700000000000 }]) =
      (true,
       [{ job_id := "1700000000000000001", url := "https://example.com",
          status := JobStatus.FAILED, created_at := some 1700000000000,
          updated_at := some 1700001200000,
          error := some "Job lost in queue after timeout. Please retry.",
          error_type := some "TIMEOUT_ERROR",
          failed_at := some 1700001200000 }])) ∧
    (storageServiceExports.contains "findOldPendingJobs" = false) := by
  refine ⟨?_, ?_, ?_, ?_⟩
  · intro oldPendingJobs qinfoOf now store
    unfold runCleanup
    rw [show storageServiceExports.contains "findOldPendingJobs" = false from rfl]
    simp
  · rfl
  · rfl
  · rfl

lemma isValidJobId_gate (s : String) (hlen : s.length = 19)
    (hdig : ∀ c ∈ s.data, c.isDigit = true) :
    (decide (s.length = 19) && s.data.all Char.isDigit) = true := by
  have h1 : decide (s.length = 19) = true := by simp [hlen]
  have h2 : s.data.all Char.isDigit = true := by
    rw [List.all_eq_true]
    exact hdig
  rw [h1, h2]
  rfl

lemma take13_parse (s : String) (hlen : s.length = 19)
    (hdig : ∀ c ∈ s.data, c.isDigit = true) :
    jsParseInt (String.mk (s.data.take 13)) = some (digitsToNat (s.data.take 13)) := by
  have htw : (String.mk (s.data.take 13)).data.takeWhile Char.isDigit = s.data.take 13 := by
    apply List.takeWhile_eq_self_iff.mpr
    intro c hc
    exact hdig c (List.mem_of_mem_take hc)
  have hdl : s.data.length = 19 := hlen
  have hne : (s.data.take 13).isEmpty = false := by
    cases hh : s.data.take 13 with
    | nil =>
      have := congrArg List.length hh
      rw [List.length_take] at this
      simp [hdl] at this
    | cons a l => rfl
  simp only [jsParseInt, htw, hne]
  simp

lemma getTimestamp_eq (s : String) (hlen : s.length = 19)
    (hdig : ∀ c ∈ s.data, c.isDigit = true) :
    getTimestampFromJobId s = Except.ok (digitsToNat (s.data.take 13)) := by
  have hlt : ¬(s.length < 13) := by omega
  unfold getTimestampFromJobId
  rw [if_neg hlt, take13_parse s hlen hdig]

/-- C8: `isValidJobId` accepts exactly the strings of 19 decimal digits
whose first 13 digits decode to a millisecond timestamp between
2000-01-01 and 2100-01-01 (inclusive); every other input — a non-string,
a wrong-length or non-numeric string, or an out-of-range timestamp — is
rejected. -/
theorem c8_isValidJobId_iff (v : JsValue) :
    isValidJobId v = true ↔
      ∃ s, v = JsValue.str s ∧ s.length = 19 ∧ (∀ c ∈ s.data, c.isDigit = true) ∧
        year2000 ≤ digitsToNat (s.data.take 13) ∧ digitsToNat (s.data.take 13) ≤ year2100 := by
  cases v with
  | nonString => simp [isValidJobId]
  | str s =>
    have hred : isValidJobId (JsValue.str s) =
        (if (!(decide (s.length = 19) && s.data.all Char.isDigit)) = true then false
         else
           match getTimestampFromJobId s with
           | Except.error _ => false
           | Except.ok t => decide (year2000 ≤ t) && decide (t ≤ year2100)) := rfl
    constructor
    · intro hv
      rw [hred] at hv
      by_cases hlen : s.length = 19
      · by_cases hdig : ∀ c ∈ s.data, c.isDigit = true
        · refine ⟨s, rfl, hlen, hdig, ?_⟩
          rw [isValidJobId_gate s hlen hdig] at hv
          simp only [Bool.not_true, Bool.false_eq_true, if_false] at hv
          rw [getTimestamp_eq s hlen hdig] at hv
          simp only [Bool.and_eq_true, decide_eq_true_eq] at hv
          exact hv
        · exfalso
          have h2 : s.data.all Char.isDigit = false := by
            rw [Bool.eq_false_iff]
            intro hc
            rw [List.all_eq_true] at hc
            exact hdig hc
          rw [h2] at hv
          simp at hv
      · exfalso
        have h1 : decide (s.length = 19) = false := by simp [hlen]
        rw [h1] at hv
        simp at hv
    · rintro ⟨s2, hs2, hlen, hdig, hlo, hhi⟩
      injection hs2 with hss
      subst hss
      rw [hred, isValidJobId_gate s hlen hdig]
      simp only [Bool.not_true, Bool.false_eq_true, if_false]
      rw [getTimestamp_eq s hlen hdig]
      simp [hlo, hhi]

lemma digitChar_toNat_sub (d : Nat) (hd : d < 10) : (Nat.digitChar d).toNat - 48 = d := by
  interval_cases d <;> rfl

lemma digitChar_isDigit (d : Nat) (hd : d < 10) : (Nat.digitChar d).isDigit = true := by
  interval_cases d <;> rfl

lemma digitsToNat_shift (B : List Char) :
    ∀ a : Nat, List.foldl (fun a c => 10 * a + (c.toNat - 48)) a B =
      a * 10 ^ B.length + List.foldl (fun a c => 10 * a + (c.toNat - 48)) 0 B := by
  induction B with
  | nil => intro a; simp
  | cons c B ih =>
    intro a
    simp only [List.foldl_cons, List.length_cons]
    rw [ih (10 * a + (c.toNat - 48)), ih (10 * 0 + (c.toNat - 48))]
    ring

lemma digitsToNat_append (A B : List Char) :
    digitsToNat (A ++ B) = digitsToNat A * 10 ^ B.length + digitsToNat B := by
  unfold digitsToNat
  rw [List.foldl_append]
  exact digitsToNat_shift B (List.foldl _ 0 A)

lemma digitsToNat_rev_map (L : List Nat) (hL : ∀ d ∈ L, d < 10) :
    digitsToNat ((L.map Nat.digitChar).reverse) = Nat.ofDigits 10 L := by
  induction L with
  | nil => simp [digitsToNat, Nat.ofDigits_nil]
  | cons d L ih =>
    have hd : d < 10 := hL d (List.mem_cons_self d L)
    have hL' : ∀ x ∈ L, x < 10 := fun x hx => hL x (List.mem_cons_of_mem d hx)
    simp only [List.map_cons, List.reverse_cons]
    rw [digitsToNat_append]
    rw [ih hL']
    have h1 : digitsToNat [Nat.digitChar d] = d := by
      unfold digitsToNat
      simp [digitChar_toNat_sub d hd]
    rw [h1]
    rw [Nat.ofDigits_cons]
    simp
    ring

lemma digitsToNat_natToDecimal (n : Nat) : digitsToNat (natToDecimal n).data = n := by
  by_cases h : n = 0
  · subst h; decide
  · unfold natToDecimal
    rw [if_neg h]
    have : (String.mk (((Nat.digits 10 n).map Nat.digitChar).reverse)).data =
        ((Nat.digits 10 n).map Nat.digitChar).reverse := rfl
    rw [this]
    rw [digitsToNat_rev_map (Nat.digits 10 n) (fun d hd => Nat.digits_lt_base (by norm_num) hd)]
    exact Nat.ofDigits_digits 10 n

lemma natToDecimal_all_digits (n : Nat) : ∀ c ∈ (natToDecimal n).data, c.isDigit = true := by
  by_cases h : n = 0
  · subst h; decide
  · unfold natToDecimal
    rw [if_neg h]
    intro c hc
    have hc' : c ∈ (Nat.digits 10 n).map Nat.digitChar := List.mem_reverse.mp hc
    obtain ⟨d, hd, hcd⟩ := List.mem_map.mp hc'
    subst hcd
    exact digitChar_isDigit d (Nat.digits_lt_base (by norm_num) hd)

lemma natToDecimal_length_13 (n : Nat) (h1 : 10 ^ 12 ≤ n) (h2 : n < 10 ^ 13) :
    (natToDecimal n).data.length = 13 := by
  have hn : n ≠ 0 := by
    intro hz
    subst hz
    simp at h1
  unfold natToDecimal
  rw [if_neg hn]
  have hdata : (String.mk (((Nat.digits 10 n).map Nat.digitChar).reverse)).data =
      ((Nat.digits 10 n).map Nat.digitChar).reverse := rfl
  rw [hdata, List.length_reverse, List.length_map]
  rw [Nat.digits_len 10 n (by norm_num) hn]
  have hlog : Nat.log 10 n = 12 :=
    Nat.log_eq_of_pow_le_of_lt_pow h1 h2
  omega

lemma natToDecimal_length_le_6 (n : Nat) (h : n < 10 ^ 6) :
    (natToDecimal n).data.length ≤ 6 := by
  by_cases hn : n = 0
  · subst hn; decide
  · unfold natToDecimal
    rw [if_neg hn]
    have hdata : (String.mk (((Nat.digits 10 n).map Nat.digitChar).reverse)).data =
        ((Nat.digits 10 n).map Nat.digitChar).reverse := rfl
    rw [hdata, List.length_reverse, List.length_map]
    rw [Nat.digits_len 10 n (by norm_num) hn]
    have hlog : Nat.log 10 n < 6 := Nat.log_lt_of_lt_pow hn h
    omega

lemma digitsToNat_replicate_zero (k : Nat) :
    digitsToNat (List.replicate k '0') = 0 := by
  induction k with
  | zero => rfl
  | succ m ih =>
    unfold digitsToNat at *
    rw [List.replicate_succ, List.foldl_cons]
    simpa using ih

lemma padStart6_data (s : String) :
    (padStart6 s).data = List.replicate (6 - s.length) '0' ++ s.data := rfl

lemma padStart6_length (s : String) (h : s.length ≤ 6) :
    (padStart6 s).data.length = 6 := by
  rw [padStart6_data, List.length_append, List.length_replicate]
  have : s.data.length = s.length := rfl
  omega

lemma digitsToNat_padStart6 (s : String) :
    digitsToNat (padStart6 s).data = digitsToNat s.data := by
  rw [padStart6_data, digitsToNat_append, digitsToNat_replicate_zero]
  simp

lemma mkJobId_data (ts seq : Nat) :
    (mkJobId ts seq).data = (natToDecimal ts).data ++ (padStart6 (natToDecimal seq)).data := rfl

lemma mkJobId_length (ts seq : Nat) (h1 : 10 ^ 12 ≤ ts) (h2 : ts < 10 ^ 13)
    (hseq : seq < 10 ^ 6) : (mkJobId ts seq).length = 19 := by
  have : (mkJobId ts seq).length = (mkJobId ts seq).data.length := rfl
  rw [this, mkJobId_data, List.length_append, natToDecimal_length_13 ts h1 h2,
    padStart6_length _ (natToDecimal_length_le_6 seq hseq)]

lemma mkJobId_all_digits (ts seq : Nat) :
    ∀ c ∈ (mkJobId ts seq).data, c.isDigit = true := by
  rw [mkJobId_data]
  intro c hc
  rcases List.mem_append.mp hc with h | h
  · exact natToDecimal_all_digits ts c h
  · rw [padStart6_data] at h
    rcases List.mem_append.mp h with h2 | h2
    · rw [List.eq_of_mem_replicate h2]; rfl
    · exact natToDecimal_all_digits seq c h2

lemma mkJobId_decode (ts seq : Nat) (hseq : seq < 10 ^ 6) :
    digitsToNat (mkJobId ts seq).data = ts * 10 ^ 6 + seq := by
  rw [mkJobId_data, digitsToNat_append, padStart6_length _ (natToDecimal_length_le_6 seq hseq),
    digitsToNat_padStart6, digitsToNat_natToDecimal, digitsToNat_natToDecimal]

lemma genStep_id (g : GenState) (i : GenInput) :
    (generateNumericJobId g i).1 =
      mkJobId (generateNumericJobId g i).2.lastTimestamp
        (generateNumericJobId g i).2.sequence := by
  unfold generateNumericJobId
  by_cases h : i.now = g.lastTimestamp
  · simp only [h, if_true]
    by_cases hw : (g.sequence + 1) % 1000000 = 0
    · simp [hw]
    · simp [hw]
  · simp [h]

lemma genStep_bounds (g : GenState) (i : GenInput) (hv : validInput g i = true)
    (hseq : g.sequence < 1000000) :
    (generateNumericJobId g i).2.sequence < 1000000 ∧
    10 ^ 12 ≤ (generateNumericJobId g i).2.lastTimestamp ∧
    (generateNumericJobId g i).2.lastTimestamp < 10 ^ 13 ∧
    g.lastTimestamp * 1000000 + g.sequence <
      (generateNumericJobId g i).2.lastTimestamp * 1000000 +
        (generateNumericJobId g i).2.sequence := by
  simp only [validInput, Bool.and_eq_true, decide_eq_true_eq] at hv
  obtain ⟨⟨⟨⟨⟨⟨h1, h2⟩, h3⟩, h4⟩, h5⟩, h6⟩, h7⟩ := hv
  unfold generateNumericJobId
  by_cases h : i.now = g.lastTimestamp
  · simp only [h, if_true]
    by_cases hw : (g.sequence + 1) % 1000000 = 0
    · simp only [hw, if_true]
      refine ⟨by norm_num, h6, h7, ?_⟩
      omega
    · simp only [hw, if_false]
      have hlt : g.sequence + 1 < 1000000 := by
        rcases Nat.lt_or_ge (g.sequence + 1) 1000000 with hc | hc
        · exact hc
        · exfalso
          have : g.sequence + 1 = 1000000 := by omega
          rw [this] at hw
          exact hw rfl
      rw [Nat.mod_eq_of_lt hlt]
      refine ⟨hlt, ?_, ?_, ?_⟩
      · rw [← h] at *; exact h4
      · rw [← h] at *; exact h5
      · rw [← h]; omega
  · simp only [h, if_false]
    have hlt : g.lastTimestamp < i.now := by omega
    exact ⟨h3, h4, h5, by omega⟩

lemma runGen_ids (inputs : List GenInput) :
    ∀ g : GenState, g.sequence < 1000000 → validRun g inputs = true →
    (∀ id ∈ (runGen g inputs).1, id.length = 19 ∧ (∀ c ∈ id.data, c.isDigit = true) ∧
       g.lastTimestamp * 1000000 + g.sequence < digitsToNat id.data) ∧
    List.Pairwise (fun a b => digitsToNat a.data < digitsToNat b.data) (runGen g inputs).1 := by
  induction inputs with
  | nil =>
    intro g hseq hrun
    simp [runGen]
  | cons i rest ih =>
    intro g hseq hrun
    simp only [validRun, Bool.and_eq_true] at hrun
    obtain ⟨hvi, hvrest⟩ := hrun
    have hb := genStep_bounds g i hvi hseq
    have hid := genStep_id g i
    have hrec := ih (generateNumericJobId g i).2 hb.1 hvrest
    have hts12 : (10:Nat) ^ 12 ≤ (generateNumericJobId g i).2.lastTimestamp := hb.2.1
    have hts13 : (generateNumericJobId g i).2.lastTimestamp < 10 ^ 13 := hb.2.2.1
    have hs6 : (generateNumericJobId g i).2.sequence < 10 ^ 6 := by
      have := hb.1
      norm_num
      omega
    have hdec : digitsToNat (generateNumericJobId g i).1.data =
        (generateNumericJobId g i).2.lastTimestamp * 1000000 +
          (generateNumericJobId g i).2.sequence := by
      rw [hid, mkJobId_decode _ _ hs6]
      norm_num
    have hrg : runGen g (i :: rest) =
        ((generateNumericJobId g i).1 :: (runGen (generateNumericJobId g i).2 rest).1,
         (runGen (generateNumericJobId g i).2 rest).2) := by
      simp only [runGen]
    rw [hrg]
    constructor
    · intro id hmem
      rcases List.mem_cons.mp hmem with hh | hh
      · subst hh
        refine ⟨?_, ?_, ?_⟩
        · rw [hid]; exact mkJobId_length _ _ hts12 hts13 hs6
        · rw [hid]; exact mkJobId_all_digits _ _
        · rw [hdec]; exact hb.2.2.2
      · have := hrec.1 id hh
        refine ⟨this.1, this.2.1, ?_⟩
        have h2 := this.2.2
        have h3 := hb.2.2.2
        omega
    · rw [List.pairwise_cons]
      constructor
      · intro id hh
        have := (hrec.1 id hh).2.2
        rw [hdec]
        omega
      · exact hrec.2

/-- C7: every id the allocator returns is a 19-character numeric string,
and a sequence of calls from one allocator under a non-decreasing
millisecond clock (13-digit readings, as every real reading between 2001
and 2286 is) returns pairwise distinct ids. -/
theorem c7_allocator_ids (g : GenState) (inputs : List GenInput)
    (hseq : g.sequence < 1000000) (hrun : validRun g inputs = true) :
    (∀ id ∈ (runGen g inputs).1, id.length = 19 ∧ id.data.all Char.isDigit = true) ∧
    List.Pairwise (fun a b => a ≠ b) (runGen g inputs).1 := by
  have h := runGen_ids inputs g hseq hrun
  constructor
  · intro id hmem
    have := h.1 id hmem
    exact ⟨this.1, List.all_eq_true.mpr this.2.1⟩
  · exact h.2.imp (fun hlt => by intro he; rw [he] at hlt; omega)

/-- Witness for C7: a concrete three-call run covering a fresh
millisecond, a same-millisecond sequence increment, and another fresh
millisecond. -/
theorem c7_allocator_ids_witness :
    (∀ id ∈ (runGen {} [⟨1700000000000, 123456, 1700000000001⟩,
        ⟨1700000000000, 0, 1700000000001⟩, ⟨1700000000002, 999999, 1700000000003⟩]).1,
      id.length = 19 ∧ id.data.all Char.isDigit = true) ∧
    List.Pairwise (fun a b => a ≠ b) (runGen {} [⟨1700000000000, 123456, 1700000000001⟩,
        ⟨1700000000000, 0, 1700000000001⟩, ⟨1700000000002, 999999, 1700000000003⟩]).1 :=
  c7_allocator_ids {} _ (by decide) (by decide)

/-- Witness for C8: a concrete 19-digit id with an in-range embedded
timestamp is accepted. -/
theorem c8_isValidJobId_iff_witness :
    isValidJobId (JsValue.str "1700000000000123456") = true :=
  (c8_isValidJobId_iff (JsValue.str "1700000000000123456")).mpr
    ⟨"1700000000000123456", rfl, by decide, by decide, by decide, by decide⟩
